import Mathlib

/-!
Shallow embedding of the fragrance compliance / mixture-analysis engine
(`src/utils/engine.ts` together with the data model of `src/types.ts` and the
constituent table `src/data/ncs.ts`).

Numbers are modelled as exact rationals (`ℚ`).  JavaScript strings become Lean
`String`s; JS `null`/`undefined`-able fields become `Option`.  The ingredient
master list (`src/data/ingredients.ts`) and the regulatory limit library
(`src/data/ifra.ts`) are not part of the sources; following the spec's
dependency-injection note (§9) every engine entry point that reads them takes
them as an explicit read-only argument.
-/

/-- Character-list test: does `l` start with `p`?  Structural so that the
kernel can evaluate it (used to model JS `String.prototype.includes`). -/
def startsWithChars : List Char → List Char → Bool
  | _, [] => true
  | [], _ :: _ => false
  | c :: cs, d :: ds => c == d && startsWithChars cs ds

/-- Character-list substring test, scanning every suffix. -/
def containsChars : List Char → List Char → Bool
  | [], p => p.isEmpty
  | c :: cs, p => startsWithChars (c :: cs) p || containsChars cs p

/-- Model of JS `String.prototype.includes` (substring containment). -/
def strIncludes (s t : String) : Bool :=
  containsChars s.data t.data

/-- Model of JS `String.prototype.toLowerCase`, structurally over the
character list. -/
def strToLower (s : String) : String :=
  ⟨s.data.map Char.toLower⟩

/-- Model of JS `String.prototype.trim`: drop whitespace from both ends. -/
def strTrim (s : String) : String :=
  ⟨((s.data.dropWhile Char.isWhitespace).reverse.dropWhile Char.isWhitespace).reverse⟩

/-- Mirror of the `Ingredient` interface of `src/types.ts` (master-list
reference record). -/
structure Ingredient where
  id : String
  name : String
  cas : String
  family : String
  note : String
  odorProfile : String
  density : ℚ
  dilution : ℚ
  solvent : String
  costPerKg : ℚ
deriving DecidableEq

/-- Mirror of the `FormulaItem` interface of `src/types.ts` (one weighed line
of the mixture). -/
structure FormulaItem where
  uuid : String
  ingredientId : Option String
  name : String
  cas : String
  family : String
  note : String
  odorProfile : String
  weight : ℚ
  dilution : ℚ
  solvent : String
  costPerKg : ℚ
  supplier : String
  customDensity : Option ℚ
  accordId : Option String
deriving DecidableEq

/-- A formula item with every field at its neutral default; concrete test
items are built by structure update from it. -/
def baseItem : FormulaItem :=
  { uuid := "", ingredientId := none, name := "", cas := "", family := ""
    note := "", odorProfile := "", weight := 0, dilution := 1, solvent := ""
    costPerKg := 0, supplier := "", customDensity := none, accordId := none }

/-- Mirror of the `IFRAEntry` interface of `src/types.ts`: the per-category
limits map becomes an association list. -/
structure IFRAEntry where
  name : String
  type : String
  limits : Option (List (String × ℚ))
deriving DecidableEq

/-- Mirror of `NCSConstituent` of `src/types.ts`. -/
structure NCSConstituent where
  name : String
  cas : String
  percent : ℚ
deriving DecidableEq

/-- Mirror of `NCS` of `src/types.ts`. -/
structure NCS where
  id : String
  constituents : List NCSConstituent
deriving DecidableEq

/-- JS truthiness of an optional string: `null` and the empty string are
falsy (`item.ingredientId ? … : null`). -/
def truthyId : Option String → Option String
  | none => none
  | some s => if s = "" then none else some s

/-- The constituent breakdown matrix `NCS_DATA` of `src/data/ncs.ts`,
transcribed verbatim. -/
def NCS_DATA : List NCS := [
  ⟨"bergamot_oil", [
    ⟨"Limonene", "5989-27-5", 0.40⟩,
    ⟨"Linalool", "78-70-6", 0.12⟩,
    ⟨"Citral", "5392-40-5", 0.007⟩,
    ⟨"Berzapten", "484-20-8", 0.002⟩]⟩,
  ⟨"lemon_oil", [
    ⟨"Limonene", "5989-27-5", 0.68⟩,
    ⟨"Citral", "5392-40-5", 0.025⟩,
    ⟨"Geraniol", "106-24-1", 0.003⟩]⟩,
  ⟨"sweet_orange_oil", [
    ⟨"Limonene", "5989-27-5", 0.95⟩,
    ⟨"Linalool", "78-70-6", 0.005⟩,
    ⟨"Citral", "5392-40-5", 0.001⟩]⟩,
  ⟨"grapefruit_oil", [
    ⟨"Limonene", "5989-27-5", 0.90⟩,
    ⟨"Citral", "5392-40-5", 0.005⟩,
    ⟨"Nootkatone", "4674-50-4", 0.01⟩]⟩,
  ⟨"mandarin_oil", [
    ⟨"Limonene", "5989-27-5", 0.72⟩,
    ⟨"Dimethyl Anthranilate", "85-91-6", 0.003⟩]⟩,
  ⟨"lime_oil_distilled", [
    ⟨"Limonene", "5989-27-5", 0.45⟩,
    ⟨"Citral", "5392-40-5", 0.005⟩]⟩,
  ⟨"lime_oil_expressed", [
    ⟨"Limonene", "5989-27-5", 0.55⟩,
    ⟨"Citral", "5392-40-5", 0.04⟩,
    ⟨"Geraniol", "106-24-1", 0.005⟩]⟩,
  ⟨"petitgrain_oil", [
    ⟨"Linalool", "78-70-6", 0.25⟩,
    ⟨"Limonene", "5989-27-5", 0.05⟩,
    ⟨"Geraniol", "106-24-1", 0.03⟩,
    ⟨"Citral", "5392-40-5", 0.001⟩]⟩,
  ⟨"rose_otto", [
    ⟨"Citronellol", "106-22-9", 0.35⟩,
    ⟨"Geraniol", "106-24-1", 0.18⟩,
    ⟨"Eugenol", "97-53-0", 0.015⟩,
    ⟨"Methyl Eugenol", "93-15-2", 0.012⟩,
    ⟨"Farnesol", "4602-84-0", 0.01⟩]⟩,
  ⟨"rose_abs", [
    ⟨"Phenylethyl Alcohol", "60-12-8", 0.65⟩,
    ⟨"Citronellol", "106-22-9", 0.12⟩,
    ⟨"Geraniol", "106-24-1", 0.07⟩,
    ⟨"Eugenol", "97-53-0", 0.015⟩,
    ⟨"Methyl Eugenol", "93-15-2", 0.008⟩]⟩,
  ⟨"jasmine_grandiflorum", [
    ⟨"Benzyl Benzoate", "120-51-4", 0.12⟩,
    ⟨"Benzyl Acetate", "140-11-4", 0.22⟩,
    ⟨"Linalool", "78-70-6", 0.06⟩,
    ⟨"Eugenol", "97-53-0", 0.005⟩]⟩,
  ⟨"jasmine_sambac", [
    ⟨"Benzyl Alcohol", "100-51-6", 0.04⟩,
    ⟨"Linalool", "78-70-6", 0.08⟩,
    ⟨"Methyl Anthranilate", "134-20-3", 0.005⟩]⟩,
  ⟨"ylang_ylang_oil", [
    ⟨"Linalool", "78-70-6", 0.18⟩,
    ⟨"Benzyl Benzoate", "120-51-4", 0.08⟩,
    ⟨"Benzyl Salicylate", "118-58-1", 0.04⟩,
    ⟨"Geraniol", "106-24-1", 0.015⟩,
    ⟨"Farnesol", "4602-84-0", 0.02⟩,
    ⟨"Isoeugenol", "97-54-1", 0.008⟩]⟩,
  ⟨"lavender_oil", [
    ⟨"Linalool", "78-70-6", 0.38⟩,
    ⟨"Geraniol", "106-24-1", 0.005⟩,
    ⟨"Coumarin", "91-64-5", 0.002⟩]⟩,
  ⟨"neroli_oil", [
    ⟨"Linalool", "78-70-6", 0.36⟩,
    ⟨"Limonene", "5989-27-5", 0.12⟩,
    ⟨"Geraniol", "106-24-1", 0.03⟩,
    ⟨"Farnesol", "4602-84-0", 0.03⟩]⟩,
  ⟨"geranium_oil", [
    ⟨"Citronellol", "106-22-9", 0.35⟩,
    ⟨"Geraniol", "106-24-1", 0.15⟩,
    ⟨"Citral", "5392-40-5", 0.01⟩]⟩,
  ⟨"clove_bud_oil", [
    ⟨"Eugenol", "97-53-0", 0.82⟩,
    ⟨"Isoeugenol", "97-54-1", 0.001⟩]⟩,
  ⟨"cinnamon_bark_oil", [
    ⟨"Cinnamal", "104-55-2", 0.65⟩,
    ⟨"Eugenol", "97-53-0", 0.06⟩,
    ⟨"Linalool", "78-70-6", 0.03⟩]⟩,
  ⟨"cardamom_oil", [
    ⟨"Linalool", "78-70-6", 0.04⟩,
    ⟨"Limonene", "5989-27-5", 0.02⟩,
    ⟨"Citral", "5392-40-5", 0.003⟩]⟩,
  ⟨"black_pepper_oil", [
    ⟨"Limonene", "5989-27-5", 0.18⟩,
    ⟨"Linalool", "78-70-6", 0.005⟩]⟩,
  ⟨"nutmeg_oil", [
    ⟨"Limonene", "5989-27-5", 0.04⟩,
    ⟨"Isoeugenol", "97-54-1", 0.005⟩,
    ⟨"Methyleugenol", "93-15-2", 0.005⟩]⟩,
  ⟨"oakmoss_abs", [
    ⟨"Atranol", "526-37-4", 0.015⟩,
    ⟨"Chloroatranol", "57074-21-2", 0.008⟩]⟩,
  ⟨"patchouli_oil", [
    ⟨"Eugenol", "97-53-0", 0.001⟩]⟩,
  ⟨"vetiver_oil", [
    ⟨"Isoeugenol", "97-54-1", 0.001⟩]⟩,
  ⟨"sandalwood_oil", [
    ⟨"Farnesol", "4602-84-0", 0.005⟩]⟩,
  ⟨"olibanum_oil", [
    ⟨"Limonene", "5989-27-5", 0.15⟩,
    ⟨"Linalool", "78-70-6", 0.01⟩]⟩]

/-- The fixed solvent density table `SOLVENT_DENSITIES` of
`src/utils/engine.ts` (g/ml). -/
def SOLVENT_DENSITIES : List (String × ℚ) := [
  ("Ethanol", 0.789),
  ("DPG", 1.02),
  ("IPM", 0.85),
  ("TEC", 1.12),
  ("BB", 1.12),
  ("Benzyl Benzoate", 1.12),
  ("Water", 1.0),
  ("Water (Aqua)", 1.0)]

/-- Density lookup `SOLVENT_DENSITIES[solventName] || 1.0`. -/
def solventDensity (name : String) : ℚ :=
  match SOLVENT_DENSITIES.lookup name with
  | some d => d
  | none => 1

/-- Name normalization of the direct-solvent branch of
`calculateSolventBreakdown` (case 2 of the loop body). -/
def normalizeSolventName (itemName : String) : String :=
  let lowerName := strToLower itemName
  if strIncludes lowerName "ethanol" || strIncludes lowerName "alcohol" then "Ethanol"
  else if strIncludes lowerName "dpg" then "DPG"
  else if strIncludes lowerName "ipm" then "IPM"
  else if strIncludes lowerName "tec" then "TEC"
  else if strIncludes lowerName "water" || strIncludes lowerName "aqua" then "Water"
  else if strIncludes lowerName "bb" || strIncludes lowerName "benzyl benzoate" then "BB"
  else itemName

/-- Per-item body of the `calculateSolventBreakdown` loop: the pair
`(solventName, addedMass)` it computes for one formula item.  `item.dilution
|| 1` maps the falsy value `0` to `1`. -/
def solventContribution (item : FormulaItem) : String × ℚ :=
  let dilution := if item.dilution = 0 then 1 else item.dilution
  if dilution < 1 then
    let solventName := if item.solvent = "" then "Ethanol" else item.solvent
    let solventName := if solventName = "None" then "Ethanol" else solventName
    (solventName, item.weight * (1 - dilution))
  else if (item.family = "Solvent" ∨ item.note = "Solvent") ∧ dilution = 1 then
    (normalizeSolventName item.name, item.weight)
  else
    ("None", 0)

/-- State of the accumulation loop of `calculateSolventBreakdown`: the
insertion-ordered `solventMap` (name ↦ mass, volume) and the two running
totals. -/
structure SolvAcc where
  map : List (String × ℚ × ℚ)
  totalMass : ℚ
  totalVolume : ℚ
deriving DecidableEq

/-- Insertion-order-preserving update of the solvent map (JS `Map.set` on an
existing or fresh key). -/
def addSolv : List (String × ℚ × ℚ) → String → ℚ → ℚ → List (String × ℚ × ℚ)
  | [], name, m, v => [(name, m, v)]
  | (n, m0, v0) :: rest, name, m, v =>
    if n = name then (n, m0 + m, v0 + v) :: rest
    else (n, m0, v0) :: addSolv rest name m v

/-- One iteration of the accumulation loop of `calculateSolventBreakdown`. -/
def solvStep (acc : SolvAcc) (item : FormulaItem) : SolvAcc :=
  let c := solventContribution item
  if 0 < c.2 ∧ c.1 ≠ "None" then
    let density := solventDensity c.1
    let addedVol := c.2 / density
    ⟨addSolv acc.map c.1 c.2 addedVol, acc.totalMass + c.2, acc.totalVolume + addedVol⟩
  else acc

/-- Mirror of `SolventBreakdownEntry` of `src/types.ts`. -/
structure SolventBreakdownEntry where
  name : String
  mass : ℚ
  volume : ℚ
  massPct : ℚ
  volPct : ℚ
deriving DecidableEq

/-- Flash-point rating union type of `src/types.ts`. -/
inductive FlashRating
  | Safe
  | Low
  | Flammable
  | High
deriving DecidableEq

/-- Flash-point estimate record of `src/types.ts` (`celsius` is nullable). -/
structure FlashPointEstimate where
  celsius : Option ℚ
  rating : FlashRating
  warning : String
deriving DecidableEq

/-- Mirror of `SolventAnalysis` of `src/types.ts`. -/
structure SolventAnalysis where
  breakdown : List SolventBreakdownEntry
  totalSolventMass : ℚ
  totalSolventVolume : ℚ
  ethanolVvPct : ℚ
  flashPointEstimate : FlashPointEstimate
deriving DecidableEq

/-- The control points of the flash-point reference curve (ethanol %v/v,
flash point °C) of `estimateFlashPoint`. -/
def flashPoints : List (ℚ × ℚ) :=
  [(0, 100), (5, 62), (10, 49), (20, 36), (30, 29), (40, 26),
   (50, 24), (60, 22), (70, 21), (80, 20), (90, 17), (100, 13)]

/-- The interpolation loop of `estimateFlashPoint`: scan adjacent control
points, take the first bracketing pair, default to 13 (pure ethanol). -/
def interpolate (pct : ℚ) : List (ℚ × ℚ) → ℚ
  | (p1, t1) :: (p2, t2) :: rest =>
    if p1 ≤ pct ∧ pct ≤ p2 then t1 + (pct - p1) / (p2 - p1) * (t2 - t1)
    else interpolate pct ((p2, t2) :: rest)
  | _ => 13

/-- Embedding of `estimateFlashPoint` of `src/utils/engine.ts`. -/
def estimateFlashPoint (ethanolVvPct : ℚ) : FlashPointEstimate :=
  if ethanolVvPct ≤ 0 then
    ⟨none, FlashRating.Safe, "Non-flammable solvent basis"⟩
  else
    let estimatedC := interpolate ethanolVvPct flashPoints
    if estimatedC < 23 then
      ⟨some estimatedC, FlashRating.High, "High flammability / shipping constraints likely"⟩
    else if estimatedC < 60 then
      ⟨some estimatedC, FlashRating.Flammable, "Flammable - review shipping/storage"⟩
    else
      ⟨some estimatedC, FlashRating.Low, "Lower flammability (still validate)"⟩

/-- Stable insertion of a breakdown entry into a list sorted by descending
mass: the entry goes after every already-placed entry of mass ≥ its own. -/
def insertDescByMass (e : SolventBreakdownEntry) :
    List SolventBreakdownEntry → List SolventBreakdownEntry
  | [] => [e]
  | b :: bs => if b.mass < e.mass then e :: b :: bs else b :: insertDescByMass e bs

/-- Stable sort by descending mass, modelling the stable JS
`Array.prototype.sort((a, b) => b.mass - a.mass)`. -/
def sortByMassDesc (l : List SolventBreakdownEntry) : List SolventBreakdownEntry :=
  l.foldl (fun acc e => insertDescByMass e acc) []

/-- Embedding of `calculateSolventBreakdown` of `src/utils/engine.ts`. -/
def calculateSolventBreakdown (formula : List FormulaItem) : SolventAnalysis :=
  let acc := formula.foldl solvStep ⟨[], 0, 0⟩
  let entries := acc.map.map (fun e =>
    ({ name := e.1, mass := e.2.1, volume := e.2.2,
       massPct := if 0 < acc.totalMass then e.2.1 / acc.totalMass * 100 else 0,
       volPct := if 0 < acc.totalVolume then e.2.2 / acc.totalVolume * 100 else 0 } :
      SolventBreakdownEntry))
  let breakdown := sortByMassDesc entries
  let ethanolVol :=
    match breakdown.find? (fun b => b.name = "Ethanol") with
    | some e => e.volume
    | none => 0
  let ethanolVvPct := if 0 < acc.totalVolume then ethanolVol / acc.totalVolume * 100 else 0
  ⟨breakdown, acc.totalMass, acc.totalVolume, ethanolVvPct, estimateFlashPoint ethanolVvPct⟩

/-- Mirror of `FormulationStats` of `src/types.ts`. -/
structure FormulationStats where
  totalWeight : ℚ
  totalVolume : ℚ
  totalCost : ℚ
  ethanolMass : ℚ
  concentrateMass : ℚ
  solventAnalysis : SolventAnalysis
deriving DecidableEq

/-- Density resolution of the `calculateStats` loop:
`item.customDensity ?? (dbIng ? dbIng.density : 1.0)` with
`dbIng = item.ingredientId ? INGREDIENTS.find(i => i.id === item.ingredientId) : null`. -/
def itemDensity (ingredients : List Ingredient) (item : FormulaItem) : ℚ :=
  let dbIng :=
    match truthyId item.ingredientId with
    | some iid => ingredients.find? (fun (i : Ingredient) => i.id = iid)
    | none => none
  match item.customDensity with
  | some d => d
  | none =>
    match dbIng with
    | some ing => ing.density
    | none => 1

/-- State of the accumulation loop of `calculateStats`. -/
structure StatsAcc where
  totalWeight : ℚ
  totalVolume : ℚ
  totalCost : ℚ
  concentrateMass : ℚ
deriving DecidableEq

/-- One iteration of the accumulation loop of `calculateStats`. -/
def statsStep (ingredients : List Ingredient) (acc : StatsAcc) (item : FormulaItem) :
    StatsAcc :=
  let density := itemDensity ingredients item
  { totalWeight := acc.totalWeight + item.weight
    totalVolume := acc.totalVolume + item.weight / density
    totalCost := acc.totalCost + item.weight / 1000 * item.costPerKg
    concentrateMass := acc.concentrateMass + item.weight * item.dilution }

/-- Embedding of `calculateStats` of `src/utils/engine.ts`.  The ingredient
master list is passed explicitly (it is module-level state in the source). -/
def calculateStats (ingredients : List Ingredient) (formula : List FormulaItem) :
    FormulationStats :=
  let acc := formula.foldl (statsStep ingredients) ⟨0, 0, 0, 0⟩
  let solventAnalysis := calculateSolventBreakdown formula
  let ethanolMass :=
    match solventAnalysis.breakdown.find? (fun b => b.name = "Ethanol") with
    | some e => e.mass
    | none => 0
  { totalWeight := acc.totalWeight, totalVolume := acc.totalVolume
    totalCost := acc.totalCost, ethanolMass := ethanolMass
    concentrateMass := acc.concentrateMass, solventAnalysis := solventAnalysis }

/-- Mirror of `ComplianceResult` of `src/types.ts`. -/
structure ComplianceResult where
  cas : String
  name : String
  totalMass : ℚ
  concentration : ℚ
  limit : ℚ
  isCompliant : Bool
  sources : List String
  reason : String
deriving DecidableEq

/-- Insertion-order-preserving additive update of the per-CAS mass record
(`massByCas[cas] = (massByCas[cas] || 0) + m`). -/
def addMass : List (String × ℚ) → String → ℚ → List (String × ℚ)
  | [], cas, m => [(cas, m)]
  | (c, m0) :: rest, cas, m =>
    if c = cas then (c, m0 + m) :: rest else (c, m0) :: addMass rest cas m

/-- Insertion-order-preserving source-set update
(`sourcesByCas[cas].add(src)`; a JS `Set` keeps first-insertion order). -/
def addSource : List (String × List String) → String → String → List (String × List String)
  | [], cas, src => [(cas, [src])]
  | (c, l) :: rest, cas, src =>
    if c = cas then (c, if src ∈ l then l else l ++ [src]) :: rest
    else (c, l) :: addSource rest cas src

/-- Per-item mass accumulation of the `checkCompliance` loop: direct CAS
attribution followed by NCS constituent expansion. -/
def casMassStep (acc : List (String × ℚ)) (item : FormulaItem) : List (String × ℚ) :=
  let realMass := item.weight * item.dilution
  let directCas := strTrim item.cas
  let acc :=
    if directCas ≠ "" ∧ directCas ≠ "Mixture" then addMass acc directCas realMass else acc
  match truthyId item.ingredientId with
  | some iid =>
    match NCS_DATA.find? (fun n => n.id = iid) with
    | some ncsProfile =>
      ncsProfile.constituents.foldl
        (fun a constituent => addMass a constituent.cas (realMass * constituent.percent)) acc
    | none => acc
  | none => acc

/-- Per-item source accumulation of the `checkCompliance` loop (parallel to
`casMassStep`; the two records never interact in the source loop). -/
def casSourcesStep (acc : List (String × List String)) (item : FormulaItem) :
    List (String × List String) :=
  let directCas := strTrim item.cas
  let acc :=
    if directCas ≠ "" ∧ directCas ≠ "Mixture" then addSource acc directCas item.name else acc
  match truthyId item.ingredientId with
  | some iid =>
    match NCS_DATA.find? (fun n => n.id = iid) with
    | some ncsProfile =>
      ncsProfile.constituents.foldl
        (fun a constituent =>
          addSource a constituent.cas
            (item.name ++ " (Hidden " ++ constituent.name ++ ")")) acc
    | none => acc
  | none => acc

/-- Category lookup `entry.limits && typeof entry.limits[targetCategory] ===
'number'`: `some` exactly when the limits map exists and holds the category. -/
def lookupLimit (entry : IFRAEntry) (targetCategory : String) : Option ℚ :=
  match entry.limits with
  | some l => l.lookup targetCategory
  | none => none

/-- Result-row construction of `checkCompliance`: one row per accumulated CAS
that has a limit-library entry, in accumulator (insertion) order. -/
def mkComplianceRows (ifra : List (String × IFRAEntry)) (totalBatchWeight : ℚ)
    (targetCategory : String) (massByCas : List (String × ℚ))
    (sourcesByCas : List (String × List String)) : List ComplianceResult :=
  massByCas.filterMap (fun p =>
    match ifra.lookup p.1 with
    | none => none
    | some entry =>
      let totalMass := p.2
      let concentration := totalMass / totalBatchWeight
      let limitPercent : ℚ :=
        match lookupLimit entry targetCategory with
        | some v => v
        | none => if entry.type = "prohibited" then 0 else 100
      let limitDecimal := limitPercent / 100
      some { cas := p.1, name := entry.name, totalMass := totalMass
             concentration := concentration, limit := limitDecimal
             isCompliant := decide (concentration ≤ limitDecimal)
             sources := (sourcesByCas.lookup p.1).getD []
             reason := if entry.type = "prohibited" then "Prohibited" else "Restriction" })

/-- Embedding of `checkCompliance` of `src/utils/engine.ts`.  The regulatory
limit library is passed explicitly (module-level state in the source).  The
final stable sort by the compliant flag (non-compliant rows first, original
order otherwise) is modelled as a stable boolean partition. -/
def checkCompliance (ifra : List (String × IFRAEntry)) (formula : List FormulaItem)
    (totalBatchWeight : ℚ) (targetCategory : String) : List ComplianceResult :=
  if totalBatchWeight = 0 then []
  else
    let massByCas := formula.foldl casMassStep []
    let sourcesByCas := formula.foldl casSourcesStep []
    let results := mkComplianceRows ifra totalBatchWeight targetCategory massByCas sourcesByCas
    results.filter (fun r => !r.isCompliant) ++ results.filter (fun r => r.isCompliant)

/-- Spec-side reference curve (refinement target), written from the spec's
words: linear interpolation between the bracketing control points
`(0,100),(5,62),(10,49),(20,36),(30,29),(40,26),(50,24),(60,22),(70,21),
(80,20),(90,17),(100,13)`, defaulting to the pure-ethanol endpoint 13 at or
beyond the final point. -/
def flashPointCurveSpec (x : ℚ) : ℚ :=
  if x ≤ 5 then 100 + (x - 0) / (5 - 0) * (62 - 100)
  else if x ≤ 10 then 62 + (x - 5) / (10 - 5) * (49 - 62)
  else if x ≤ 20 then 49 + (x - 10) / (20 - 10) * (36 - 49)
  else if x ≤ 30 then 36 + (x - 20) / (30 - 20) * (29 - 36)
  else if x ≤ 40 then 29 + (x - 30) / (40 - 30) * (26 - 29)
  else if x ≤ 50 then 26 + (x - 40) / (50 - 40) * (24 - 26)
  else if x ≤ 60 then 24 + (x - 50) / (60 - 50) * (22 - 24)
  else if x ≤ 70 then 22 + (x - 60) / (70 - 60) * (21 - 22)
  else if x ≤ 80 then 21 + (x - 70) / (80 - 70) * (20 - 21)
  else if x ≤ 90 then 20 + (x - 80) / (90 - 80) * (17 - 20)
  else if x ≤ 100 then 17 + (x - 90) / (100 - 90) * (13 - 17)
  else 13

/-- Entry construction of `calculateSolventBreakdown`: the solvent map turned
into breakdown rows with percentage fields relative to the accumulated
totals. -/
def solvEntries (acc : SolvAcc) : List SolventBreakdownEntry :=
  acc.map.map (fun e =>
    ({ name := e.1, mass := e.2.1, volume := e.2.2,
       massPct := if 0 < acc.totalMass then e.2.1 / acc.totalMass * 100 else 0,
       volPct := if 0 < acc.totalVolume then e.2.2 / acc.totalVolume * 100 else 0 } :
      SolventBreakdownEntry))

/-- Spec-side per-item direct CAS attribution of the compliance accumulation:
the item's own post-dilution mass when its trimmed CAS is the queried one and
is neither empty nor the `Mixture` sentinel. -/
def directContribution (item : FormulaItem) (cas : String) : ℚ :=
  if strTrim item.cas = cas ∧ cas ≠ "" ∧ cas ≠ "Mixture" then
    item.weight * item.dilution
  else 0

/-- Spec-side per-item hidden-constituent attribution: the summed fractions
of the item's post-dilution mass listed for the queried CAS in the item's
constituent profile. -/
def hiddenContribution (item : FormulaItem) (cas : String) : ℚ :=
  match truthyId item.ingredientId with
  | some iid =>
    match NCS_DATA.find? (fun n => n.id = iid) with
    | some ncsProfile =>
      (((ncsProfile.constituents.filter (fun c => c.cas = cas)).map
        (fun c => item.weight * item.dilution * c.percent)).sum)
    | none => 0
  | none => 0

/-- Mass recorded for a CAS in the per-CAS accumulator (0 when absent). -/
def massOf (m : List (String × ℚ)) (cas : String) : ℚ :=
  match m.lookup cas with
  | some v => v
  | none => 0

/-- Test fixture: the one-line bergamot formula of the spec's worked example
(1000 g, neat, CAS `Mixture`, linked to `bergamot_oil`). -/
def bergItem : FormulaItem :=
  { uuid := "", ingredientId := some "bergamot_oil", name := "Bergamot"
    cas := "Mixture", family := "", note := "", odorProfile := "", weight := 1000
    dilution := 1, solvent := "", costPerKg := 0, supplier := ""
    customDensity := none, accordId := none }

/-- Test fixture: a one-entry limit library holding Berzapten with a single
category-4 limit of L percent. -/
def bergIfra (L : ℚ) : List (String × IFRAEntry) :=
  [("484-20-8", { name := "Berzapten", type := "restricted", limits := some [("4", L)] })]

/-- Test fixture: a neat 10 g item carrying the CAS of a prohibited-typed
entry. -/
def itemX : FormulaItem :=
  { uuid := "", ingredientId := none, name := "X", cas := "111-11-1", family := ""
    note := "", odorProfile := "", weight := 10, dilution := 1, solvent := ""
    costPerKg := 0, supplier := "", customDensity := none, accordId := none }

/-- Test fixture: a prohibited-typed entry that also carries a category-4
limit of 50 percent in its limits map. -/
def ifraX : List (String × IFRAEntry) :=
  [("111-11-1", { name := "XSubstance", type := "prohibited", limits := some [("4", 50)] })]

/-- Test fixture: a neat 2000 g item carrying the CAS of a restricted entry
with no limits map. -/
def itemY : FormulaItem :=
  { uuid := "", ingredientId := none, name := "Y", cas := "222-22-2", family := ""
    note := "", odorProfile := "", weight := 2000, dilution := 1, solvent := ""
    costPerKg := 0, supplier := "", customDensity := none, accordId := none }

/-- Test fixture: a restricted entry with no limits map. -/
def ifraY : List (String × IFRAEntry) :=
  [("222-22-2", { name := "YSubstance", type := "restricted", limits := none })]

/-- Test fixture: a neat 100 g item carrying the CAS of a restricted entry
with a category-4 limit. -/
def itemW : FormulaItem :=
  { uuid := "", ingredientId := none, name := "W", cas := "333-33-3", family := ""
    note := "", odorProfile := "", weight := 100, dilution := 1, solvent := ""
    costPerKg := 0, supplier := "", customDensity := none, accordId := none }

/-- Test fixture: a restricted entry with a category-4 limit of 50 percent. -/
def ifraW : List (String × IFRAEntry) :=
  [("333-33-3", { name := "WSubstance", type := "restricted", limits := some [("4", 50)] })]

/-- Test fixture: the single compliance row produced by `itemW` against
`ifraW` at batch weight 1000 in category 4. -/
def rowW : ComplianceResult :=
  { cas := "333-33-3", name := "WSubstance", totalMass := 100, concentration := 1/10
    limit := 1/2, isCompliant := true, sources := ["W"], reason := "Restriction" }

/-- Unfolding of the interpolation loop on the concrete control-point list. -/
theorem interpolate_flashPoints_unfold (x : ℚ) :
    interpolate x flashPoints =
      (if 0 ≤ x ∧ x ≤ 5 then (100 : ℚ) + (x - 0) / (5 - 0) * (62 - 100)
       else if 5 ≤ x ∧ x ≤ 10 then 62 + (x - 5) / (10 - 5) * (49 - 62)
       else if 10 ≤ x ∧ x ≤ 20 then 49 + (x - 10) / (20 - 10) * (36 - 49)
       else if 20 ≤ x ∧ x ≤ 30 then 36 + (x - 20) / (30 - 20) * (29 - 36)
       else if 30 ≤ x ∧ x ≤ 40 then 29 + (x - 30) / (40 - 30) * (26 - 29)
       else if 40 ≤ x ∧ x ≤ 50 then 26 + (x - 40) / (50 - 40) * (24 - 26)
       else if 50 ≤ x ∧ x ≤ 60 then 24 + (x - 50) / (60 - 50) * (22 - 24)
       else if 60 ≤ x ∧ x ≤ 70 then 22 + (x - 60) / (70 - 60) * (21 - 22)
       else if 70 ≤ x ∧ x ≤ 80 then 21 + (x - 70) / (80 - 70) * (20 - 21)
       else if 80 ≤ x ∧ x ≤ 90 then 20 + (x - 80) / (90 - 80) * (17 - 20)
       else if 90 ≤ x ∧ x ≤ 100 then 17 + (x - 90) / (100 - 90) * (13 - 17)
       else 13) := rfl
/-- Value of the spec-side curve on interval 1 of the control grid. -/
theorem curveSpec_val_1 (x : ℚ) (hhi : x ≤ 5) :
    flashPointCurveSpec x = (100 : ℚ) + (x - 0) / (5 - 0) * (62 - 100) := by
  simp only [flashPointCurveSpec]
  rw [if_pos hhi]

/-- Value of the spec-side curve on interval 2 of the control grid. -/
theorem curveSpec_val_2 (x : ℚ) (hlo : 5 < x) (hhi : x ≤ 10) :
    flashPointCurveSpec x = (62 : ℚ) + (x - 5) / (10 - 5) * (49 - 62) := by
  simp only [flashPointCurveSpec]
  rw [if_neg (show ¬(x ≤ (5 : ℚ)) from not_le.mpr (by linarith)),
    if_pos hhi]

/-- Value of the spec-side curve on interval 3 of the control grid. -/
theorem curveSpec_val_3 (x : ℚ) (hlo : 10 < x) (hhi : x ≤ 20) :
    flashPointCurveSpec x = (49 : ℚ) + (x - 10) / (20 - 10) * (36 - 49) := by
  simp only [flashPointCurveSpec]
  rw [if_neg (show ¬(x ≤ (5 : ℚ)) from not_le.mpr (by linarith)),
    if_neg (show ¬(x ≤ (10 : ℚ)) from not_le.mpr (by linarith)),
    if_pos hhi]

/-- Value of the spec-side curve on interval 4 of the control grid. -/
theorem curveSpec_val_4 (x : ℚ) (hlo : 20 < x) (hhi : x ≤ 30) :
    flashPointCurveSpec x = (36 : ℚ) + (x - 20) / (30 - 20) * (29 - 36) := by
  simp only [flashPointCurveSpec]
  rw [if_neg (show ¬(x ≤ (5 : ℚ)) from not_le.mpr (by linarith)),
    if_neg (show ¬(x ≤ (10 : ℚ)) from not_le.mpr (by linarith)),
    if_neg (show ¬(x ≤ (20 : ℚ)) from not_le.mpr (by linarith)),
    if_pos hhi]

/-- Value of the spec-side curve on interval 5 of the control grid. -/
theorem curveSpec_val_5 (x : ℚ) (hlo : 30 < x) (hhi : x ≤ 40) :
    flashPointCurveSpec x = (29 : ℚ) + (x - 30) / (40 - 30) * (26 - 29) := by
  simp only [flashPointCurveSpec]
  rw [if_neg (show ¬(x ≤ (5 : ℚ)) from not_le.mpr (by linarith)),
    if_neg (show ¬(x ≤ (10 : ℚ)) from not_le.mpr (by linarith)),
    if_neg (show ¬(x ≤ (20 : ℚ)) from not_le.mpr (by linarith)),
    if_neg (show ¬(x ≤ (30 : ℚ)) from not_le.mpr (by linarith)),
    if_pos hhi]

/-- Value of the spec-side curve on interval 6 of the control grid. -/
theorem curveSpec_val_6 (x : ℚ) (hlo : 40 < x) (hhi : x ≤ 50) :
    flashPointCurveSpec x = (26 : ℚ) + (x - 40) / (50 - 40) * (24 - 26) := by
  simp only [flashPointCurveSpec]
  rw [if_neg (show ¬(x ≤ (5 : ℚ)) from not_le.mpr (by linarith)),
    if_neg (show ¬(x ≤ (10 : ℚ)) from not_le.mpr (by linarith)),
    if_neg (show ¬(x ≤ (20 : ℚ)) from not_le.mpr (by linarith)),
    if_neg (show ¬(x ≤ (30 : ℚ)) from not_le.mpr (by linarith)),
    if_neg (show ¬(x ≤ (40 : ℚ)) from not_le.mpr (by linarith)),
    if_pos hhi]

/-- Value of the spec-side curve on interval 7 of the control grid. -/
theorem curveSpec_val_7 (x : ℚ) (hlo : 50 < x) (hhi : x ≤ 60) :
    flashPointCurveSpec x = (24 : ℚ) + (x - 50) / (60 - 50) * (22 - 24) := by
  simp only [flashPointCurveSpec]
  rw [if_neg (show ¬(x ≤ (5 : ℚ)) from not_le.mpr (by linarith)),
    if_neg (show ¬(x ≤ (10 : ℚ)) from not_le.mpr (by linarith)),
    if_neg (show ¬(x ≤ (20 : ℚ)) from not_le.mpr (by linarith)),
    if_neg (show ¬(x ≤ (30 : ℚ)) from not_le.mpr (by linarith)),
    if_neg (show ¬(x ≤ (40 : ℚ)) from not_le.mpr (by linarith)),
    if_neg (show ¬(x ≤ (50 : ℚ)) from not_le.mpr (by linarith)),
    if_pos hhi]

/-- Value of the spec-side curve on interval 8 of the control grid. -/
theorem curveSpec_val_8 (x : ℚ) (hlo : 60 < x) (hhi : x ≤ 70) :
    flashPointCurveSpec x = (22 : ℚ) + (x - 60) / (70 - 60) * (21 - 22) := by
  simp only [flashPointCurveSpec]
  rw [if_neg (show ¬(x ≤ (5 : ℚ)) from not_le.mpr (by linarith)),
    if_neg (show ¬(x ≤ (10 : ℚ)) from not_le.mpr (by linarith)),
    if_neg (show ¬(x ≤ (20 : ℚ)) from not_le.mpr (by linarith)),
    if_neg (show ¬(x ≤ (30 : ℚ)) from not_le.mpr (by linarith)),
    if_neg (show ¬(x ≤ (40 : ℚ)) from not_le.mpr (by linarith)),
    if_neg (show ¬(x ≤ (50 : ℚ)) from not_le.mpr (by linarith)),
    if_neg (show ¬(x ≤ (60 : ℚ)) from not_le.mpr (by linarith)),
    if_pos hhi]

/-- Value of the spec-side curve on interval 9 of the control grid. -/
theorem curveSpec_val_9 (x : ℚ) (hlo : 70 < x) (hhi : x ≤ 80) :
    flashPointCurveSpec x = (21 : ℚ) + (x - 70) / (80 - 70) * (20 - 21) := by
  simp only [flashPointCurveSpec]
  rw [if_neg (show ¬(x ≤ (5 : ℚ)) from not_le.mpr (by linarith)),
    if_neg (show ¬(x ≤ (10 : ℚ)) from not_le.mpr (by linarith)),
    if_neg (show ¬(x ≤ (20 : ℚ)) from not_le.mpr (by linarith)),
    if_neg (show ¬(x ≤ (30 : ℚ)) from not_le.mpr (by linarith)),
    if_neg (show ¬(x ≤ (40 : ℚ)) from not_le.mpr (by linarith)),
    if_neg (show ¬(x ≤ (50 : ℚ)) from not_le.mpr (by linarith)),
    if_neg (show ¬(x ≤ (60 : ℚ)) from not_le.mpr (by linarith)),
    if_neg (show ¬(x ≤ (70 : ℚ)) from not_le.mpr (by linarith)),
    if_pos hhi]

/-- Value of the spec-side curve on interval 10 of the control grid. -/
theorem curveSpec_val_10 (x : ℚ) (hlo : 80 < x) (hhi : x ≤ 90) :
    flashPointCurveSpec x = (20 : ℚ) + (x - 80) / (90 - 80) * (17 - 20) := by
  simp only [flashPointCurveSpec]
  rw [if_neg (show ¬(x ≤ (5 : ℚ)) from not_le.mpr (by linarith)),
    if_neg (show ¬(x ≤ (10 : ℚ)) from not_le.mpr (by linarith)),
    if_neg (show ¬(x ≤ (20 : ℚ)) from not_le.mpr (by linarith)),
    if_neg (show ¬(x ≤ (30 : ℚ)) from not_le.mpr (by linarith)),
    if_neg (show ¬(x ≤ (40 : ℚ)) from not_le.mpr (by linarith)),
    if_neg (show ¬(x ≤ (50 : ℚ)) from not_le.mpr (by linarith)),
    if_neg (show ¬(x ≤ (60 : ℚ)) from not_le.mpr (by linarith)),
    if_neg (show ¬(x ≤ (70 : ℚ)) from not_le.mpr (by linarith)),
    if_neg (show ¬(x ≤ (80 : ℚ)) from not_le.mpr (by linarith)),
    if_pos hhi]

/-- Value of the spec-side curve on interval 11 of the control grid. -/
theorem curveSpec_val_11 (x : ℚ) (hlo : 90 < x) (hhi : x ≤ 100) :
    flashPointCurveSpec x = (17 : ℚ) + (x - 90) / (100 - 90) * (13 - 17) := by
  simp only [flashPointCurveSpec]
  rw [if_neg (show ¬(x ≤ (5 : ℚ)) from not_le.mpr (by linarith)),
    if_neg (show ¬(x ≤ (10 : ℚ)) from not_le.mpr (by linarith)),
    if_neg (show ¬(x ≤ (20 : ℚ)) from not_le.mpr (by linarith)),
    if_neg (show ¬(x ≤ (30 : ℚ)) from not_le.mpr (by linarith)),
    if_neg (show ¬(x ≤ (40 : ℚ)) from not_le.mpr (by linarith)),
    if_neg (show ¬(x ≤ (50 : ℚ)) from not_le.mpr (by linarith)),
    if_neg (show ¬(x ≤ (60 : ℚ)) from not_le.mpr (by linarith)),
    if_neg (show ¬(x ≤ (70 : ℚ)) from not_le.mpr (by linarith)),
    if_neg (show ¬(x ≤ (80 : ℚ)) from not_le.mpr (by linarith)),
    if_neg (show ¬(x ≤ (90 : ℚ)) from not_le.mpr (by linarith)),
    if_pos hhi]

/-- Value of the spec-side curve on interval 12 of the control grid. -/
theorem curveSpec_val_12 (x : ℚ) (hlo : 100 < x) :
    flashPointCurveSpec x = (13 : ℚ) := by
  simp only [flashPointCurveSpec]
  rw [if_neg (show ¬(x ≤ (5 : ℚ)) from not_le.mpr (by linarith)),
    if_neg (show ¬(x ≤ (10 : ℚ)) from not_le.mpr (by linarith)),
    if_neg (show ¬(x ≤ (20 : ℚ)) from not_le.mpr (by linarith)),
    if_neg (show ¬(x ≤ (30 : ℚ)) from not_le.mpr (by linarith)),
    if_neg (show ¬(x ≤ (40 : ℚ)) from not_le.mpr (by linarith)),
    if_neg (show ¬(x ≤ (50 : ℚ)) from not_le.mpr (by linarith)),
    if_neg (show ¬(x ≤ (60 : ℚ)) from not_le.mpr (by linarith)),
    if_neg (show ¬(x ≤ (70 : ℚ)) from not_le.mpr (by linarith)),
    if_neg (show ¬(x ≤ (80 : ℚ)) from not_le.mpr (by linarith)),
    if_neg (show ¬(x ≤ (90 : ℚ)) from not_le.mpr (by linarith)),
    if_neg (show ¬(x ≤ (100 : ℚ)) from not_le.mpr (by linarith))]

/-- Value of the interpolation loop on interval 1 of the control grid. -/
theorem interp_val_1 (x : ℚ) (hlo : 0 < x) (hhi : x ≤ 5) :
    interpolate x flashPoints = (100 : ℚ) + (x - 0) / (5 - 0) * (62 - 100) := by
  rw [interpolate_flashPoints_unfold]
  rw [if_pos ⟨by linarith, hhi⟩]

/-- Value of the interpolation loop on interval 2 of the control grid. -/
theorem interp_val_2 (x : ℚ) (hlo : 5 < x) (hhi : x ≤ 10) :
    interpolate x flashPoints = (62 : ℚ) + (x - 5) / (10 - 5) * (49 - 62) := by
  rw [interpolate_flashPoints_unfold]
  rw [if_neg (show ¬((0 : ℚ) ≤ x ∧ x ≤ 5) from fun c => absurd c.2 (not_le.mpr (by linarith))),
    if_pos ⟨by linarith, hhi⟩]

/-- Value of the interpolation loop on interval 3 of the control grid. -/
theorem interp_val_3 (x : ℚ) (hlo : 10 < x) (hhi : x ≤ 20) :
    interpolate x flashPoints = (49 : ℚ) + (x - 10) / (20 - 10) * (36 - 49) := by
  rw [interpolate_flashPoints_unfold]
  rw [if_neg (show ¬((0 : ℚ) ≤ x ∧ x ≤ 5) from fun c => absurd c.2 (not_le.mpr (by linarith))),
    if_neg (show ¬((5 : ℚ) ≤ x ∧ x ≤ 10) from fun c => absurd c.2 (not_le.mpr (by linarith))),
    if_pos ⟨by linarith, hhi⟩]

/-- Value of the interpolation loop on interval 4 of the control grid. -/
theorem interp_val_4 (x : ℚ) (hlo : 20 < x) (hhi : x ≤ 30) :
    interpolate x flashPoints = (36 : ℚ) + (x - 20) / (30 - 20) * (29 - 36) := by
  rw [interpolate_flashPoints_unfold]
  rw [if_neg (show ¬((0 : ℚ) ≤ x ∧ x ≤ 5) from fun c => absurd c.2 (not_le.mpr (by linarith))),
    if_neg (show ¬((5 : ℚ) ≤ x ∧ x ≤ 10) from fun c => absurd c.2 (not_le.mpr (by linarith))),
    if_neg (show ¬((10 : ℚ) ≤ x ∧ x ≤ 20) from fun c => absurd c.2 (not_le.mpr (by linarith))),
    if_pos ⟨by linarith, hhi⟩]

/-- Value of the interpolation loop on interval 5 of the control grid. -/
theorem interp_val_5 (x : ℚ) (hlo : 30 < x) (hhi : x ≤ 40) :
    interpolate x flashPoints = (29 : ℚ) + (x - 30) / (40 - 30) * (26 - 29) := by
  rw [interpolate_flashPoints_unfold]
  rw [if_neg (show ¬((0 : ℚ) ≤ x ∧ x ≤ 5) from fun c => absurd c.2 (not_le.mpr (by linarith))),
    if_neg (show ¬((5 : ℚ) ≤ x ∧ x ≤ 10) from fun c => absurd c.2 (not_le.mpr (by linarith))),
    if_neg (show ¬((10 : ℚ) ≤ x ∧ x ≤ 20) from fun c => absurd c.2 (not_le.mpr (by linarith))),
    if_neg (show ¬((20 : ℚ) ≤ x ∧ x ≤ 30) from fun c => absurd c.2 (not_le.mpr (by linarith))),
    if_pos ⟨by linarith, hhi⟩]

/-- Value of the interpolation loop on interval 6 of the control grid. -/
theorem interp_val_6 (x : ℚ) (hlo : 40 < x) (hhi : x ≤ 50) :
    interpolate x flashPoints = (26 : ℚ) + (x - 40) / (50 - 40) * (24 - 26) := by
  rw [interpolate_flashPoints_unfold]
  rw [if_neg (show ¬((0 : ℚ) ≤ x ∧ x ≤ 5) from fun c => absurd c.2 (not_le.mpr (by linarith))),
    if_neg (show ¬((5 : ℚ) ≤ x ∧ x ≤ 10) from fun c => absurd c.2 (not_le.mpr (by linarith))),
    if_neg (show ¬((10 : ℚ) ≤ x ∧ x ≤ 20) from fun c => absurd c.2 (not_le.mpr (by linarith))),
    if_neg (show ¬((20 : ℚ) ≤ x ∧ x ≤ 30) from fun c => absurd c.2 (not_le.mpr (by linarith))),
    if_neg (show ¬((30 : ℚ) ≤ x ∧ x ≤ 40) from fun c => absurd c.2 (not_le.mpr (by linarith))),
    if_pos ⟨by linarith, hhi⟩]

/-- Value of the interpolation loop on interval 7 of the control grid. -/
theorem interp_val_7 (x : ℚ) (hlo : 50 < x) (hhi : x ≤ 60) :
    interpolate x flashPoints = (24 : ℚ) + (x - 50) / (60 - 50) * (22 - 24) := by
  rw [interpolate_flashPoints_unfold]
  rw [if_neg (show ¬((0 : ℚ) ≤ x ∧ x ≤ 5) from fun c => absurd c.2 (not_le.mpr (by linarith))),
    if_neg (show ¬((5 : ℚ) ≤ x ∧ x ≤ 10) from fun c => absurd c.2 (not_le.mpr (by linarith))),
    if_neg (show ¬((10 : ℚ) ≤ x ∧ x ≤ 20) from fun c => absurd c.2 (not_le.mpr (by linarith))),
    if_neg (show ¬((20 : ℚ) ≤ x ∧ x ≤ 30) from fun c => absurd c.2 (not_le.mpr (by linarith))),
    if_neg (show ¬((30 : ℚ) ≤ x ∧ x ≤ 40) from fun c => absurd c.2 (not_le.mpr (by linarith))),
    if_neg (show ¬((40 : ℚ) ≤ x ∧ x ≤ 50) from fun c => absurd c.2 (not_le.mpr (by linarith))),
    if_pos ⟨by linarith, hhi⟩]

/-- Value of the interpolation loop on interval 8 of the control grid. -/
theorem interp_val_8 (x : ℚ) (hlo : 60 < x) (hhi : x ≤ 70) :
    interpolate x flashPoints = (22 : ℚ) + (x - 60) / (70 - 60) * (21 - 22) := by
  rw [interpolate_flashPoints_unfold]
  rw [if_neg (show ¬((0 : ℚ) ≤ x ∧ x ≤ 5) from fun c => absurd c.2 (not_le.mpr (by linarith))),
    if_neg (show ¬((5 : ℚ) ≤ x ∧ x ≤ 10) from fun c => absurd c.2 (not_le.mpr (by linarith))),
    if_neg (show ¬((10 : ℚ) ≤ x ∧ x ≤ 20) from fun c => absurd c.2 (not_le.mpr (by linarith))),
    if_neg (show ¬((20 : ℚ) ≤ x ∧ x ≤ 30) from fun c => absurd c.2 (not_le.mpr (by linarith))),
    if_neg (show ¬((30 : ℚ) ≤ x ∧ x ≤ 40) from fun c => absurd c.2 (not_le.mpr (by linarith))),
    if_neg (show ¬((40 : ℚ) ≤ x ∧ x ≤ 50) from fun c => absurd c.2 (not_le.mpr (by linarith))),
    if_neg (show ¬((50 : ℚ) ≤ x ∧ x ≤ 60) from fun c => absurd c.2 (not_le.mpr (by linarith))),
    if_pos ⟨by linarith, hhi⟩]

/-- Value of the interpolation loop on interval 9 of the control grid. -/
theorem interp_val_9 (x : ℚ) (hlo : 70 < x) (hhi : x ≤ 80) :
    interpolate x flashPoints = (21 : ℚ) + (x - 70) / (80 - 70) * (20 - 21) := by
  rw [interpolate_flashPoints_unfold]
  rw [if_neg (show ¬((0 : ℚ) ≤ x ∧ x ≤ 5) from fun c => absurd c.2 (not_le.mpr (by linarith))),
    if_neg (show ¬((5 : ℚ) ≤ x ∧ x ≤ 10) from fun c => absurd c.2 (not_le.mpr (by linarith))),
    if_neg (show ¬((10 : ℚ) ≤ x ∧ x ≤ 20) from fun c => absurd c.2 (not_le.mpr (by linarith))),
    if_neg (show ¬((20 : ℚ) ≤ x ∧ x ≤ 30) from fun c => absurd c.2 (not_le.mpr (by linarith))),
    if_neg (show ¬((30 : ℚ) ≤ x ∧ x ≤ 40) from fun c => absurd c.2 (not_le.mpr (by linarith))),
    if_neg (show ¬((40 : ℚ) ≤ x ∧ x ≤ 50) from fun c => absurd c.2 (not_le.mpr (by linarith))),
    if_neg (show ¬((50 : ℚ) ≤ x ∧ x ≤ 60) from fun c => absurd c.2 (not_le.mpr (by linarith))),
    if_neg (show ¬((60 : ℚ) ≤ x ∧ x ≤ 70) from fun c => absurd c.2 (not_le.mpr (by linarith))),
    if_pos ⟨by linarith, hhi⟩]

/-- Value of the interpolation loop on interval 10 of the control grid. -/
theorem interp_val_10 (x : ℚ) (hlo : 80 < x) (hhi : x ≤ 90) :
    interpolate x flashPoints = (20 : ℚ) + (x - 80) / (90 - 80) * (17 - 20) := by
  rw [interpolate_flashPoints_unfold]
  rw [if_neg (show ¬((0 : ℚ) ≤ x ∧ x ≤ 5) from fun c => absurd c.2 (not_le.mpr (by linarith))),
    if_neg (show ¬((5 : ℚ) ≤ x ∧ x ≤ 10) from fun c => absurd c.2 (not_le.mpr (by linarith))),
    if_neg (show ¬((10 : ℚ) ≤ x ∧ x ≤ 20) from fun c => absurd c.2 (not_le.mpr (by linarith))),
    if_neg (show ¬((20 : ℚ) ≤ x ∧ x ≤ 30) from fun c => absurd c.2 (not_le.mpr (by linarith))),
    if_neg (show ¬((30 : ℚ) ≤ x ∧ x ≤ 40) from fun c => absurd c.2 (not_le.mpr (by linarith))),
    if_neg (show ¬((40 : ℚ) ≤ x ∧ x ≤ 50) from fun c => absurd c.2 (not_le.mpr (by linarith))),
    if_neg (show ¬((50 : ℚ) ≤ x ∧ x ≤ 60) from fun c => absurd c.2 (not_le.mpr (by linarith))),
    if_neg (show ¬((60 : ℚ) ≤ x ∧ x ≤ 70) from fun c => absurd c.2 (not_le.mpr (by linarith))),
    if_neg (show ¬((70 : ℚ) ≤ x ∧ x ≤ 80) from fun c => absurd c.2 (not_le.mpr (by linarith))),
    if_pos ⟨by linarith, hhi⟩]

/-- Value of the interpolation loop on interval 11 of the control grid. -/
theorem interp_val_11 (x : ℚ) (hlo : 90 < x) (hhi : x ≤ 100) :
    interpolate x flashPoints = (17 : ℚ) + (x - 90) / (100 - 90) * (13 - 17) := by
  rw [interpolate_flashPoints_unfold]
  rw [if_neg (show ¬((0 : ℚ) ≤ x ∧ x ≤ 5) from fun c => absurd c.2 (not_le.mpr (by linarith))),
    if_neg (show ¬((5 : ℚ) ≤ x ∧ x ≤ 10) from fun c => absurd c.2 (not_le.mpr (by linarith))),
    if_neg (show ¬((10 : ℚ) ≤ x ∧ x ≤ 20) from fun c => absurd c.2 (not_le.mpr (by linarith))),
    if_neg (show ¬((20 : ℚ) ≤ x ∧ x ≤ 30) from fun c => absurd c.2 (not_le.mpr (by linarith))),
    if_neg (show ¬((30 : ℚ) ≤ x ∧ x ≤ 40) from fun c => absurd c.2 (not_le.mpr (by linarith))),
    if_neg (show ¬((40 : ℚ) ≤ x ∧ x ≤ 50) from fun c => absurd c.2 (not_le.mpr (by linarith))),
    if_neg (show ¬((50 : ℚ) ≤ x ∧ x ≤ 60) from fun c => absurd c.2 (not_le.mpr (by linarith))),
    if_neg (show ¬((60 : ℚ) ≤ x ∧ x ≤ 70) from fun c => absurd c.2 (not_le.mpr (by linarith))),
    if_neg (show ¬((70 : ℚ) ≤ x ∧ x ≤ 80) from fun c => absurd c.2 (not_le.mpr (by linarith))),
    if_neg (show ¬((80 : ℚ) ≤ x ∧ x ≤ 90) from fun c => absurd c.2 (not_le.mpr (by linarith))),
    if_pos ⟨by linarith, hhi⟩]

/-- Value of the interpolation loop on interval 12 of the control grid. -/
theorem interp_val_12 (x : ℚ) (hlo : 100 < x) :
    interpolate x flashPoints = (13 : ℚ) := by
  rw [interpolate_flashPoints_unfold]
  rw [if_neg (show ¬((0 : ℚ) ≤ x ∧ x ≤ 5) from fun c => absurd c.2 (not_le.mpr (by linarith))),
    if_neg (show ¬((5 : ℚ) ≤ x ∧ x ≤ 10) from fun c => absurd c.2 (not_le.mpr (by linarith))),
    if_neg (show ¬((10 : ℚ) ≤ x ∧ x ≤ 20) from fun c => absurd c.2 (not_le.mpr (by linarith))),
    if_neg (show ¬((20 : ℚ) ≤ x ∧ x ≤ 30) from fun c => absurd c.2 (not_le.mpr (by linarith))),
    if_neg (show ¬((30 : ℚ) ≤ x ∧ x ≤ 40) from fun c => absurd c.2 (not_le.mpr (by linarith))),
    if_neg (show ¬((40 : ℚ) ≤ x ∧ x ≤ 50) from fun c => absurd c.2 (not_le.mpr (by linarith))),
    if_neg (show ¬((50 : ℚ) ≤ x ∧ x ≤ 60) from fun c => absurd c.2 (not_le.mpr (by linarith))),
    if_neg (show ¬((60 : ℚ) ≤ x ∧ x ≤ 70) from fun c => absurd c.2 (not_le.mpr (by linarith))),
    if_neg (show ¬((70 : ℚ) ≤ x ∧ x ≤ 80) from fun c => absurd c.2 (not_le.mpr (by linarith))),
    if_neg (show ¬((80 : ℚ) ≤ x ∧ x ≤ 90) from fun c => absurd c.2 (not_le.mpr (by linarith))),
    if_neg (show ¬((90 : ℚ) ≤ x ∧ x ≤ 100) from fun c => absurd c.2 (not_le.mpr (by linarith)))]

/-- On positive inputs the interpolation loop agrees with the spec-side curve. -/
theorem interpolate_eq_curveSpec (x : ℚ) (hx : 0 < x) :
    interpolate x flashPoints = flashPointCurveSpec x := by
  rcases le_or_lt x 5 with h1 | h1
  · exact (interp_val_1 x hx h1).trans (curveSpec_val_1 x h1).symm
  rcases le_or_lt x 10 with h2 | h2
  · exact (interp_val_2 x h1 h2).trans (curveSpec_val_2 x h1 h2).symm
  rcases le_or_lt x 20 with h3 | h3
  · exact (interp_val_3 x h2 h3).trans (curveSpec_val_3 x h2 h3).symm
  rcases le_or_lt x 30 with h4 | h4
  · exact (interp_val_4 x h3 h4).trans (curveSpec_val_4 x h3 h4).symm
  rcases le_or_lt x 40 with h5 | h5
  · exact (interp_val_5 x h4 h5).trans (curveSpec_val_5 x h4 h5).symm
  rcases le_or_lt x 50 with h6 | h6
  · exact (interp_val_6 x h5 h6).trans (curveSpec_val_6 x h5 h6).symm
  rcases le_or_lt x 60 with h7 | h7
  · exact (interp_val_7 x h6 h7).trans (curveSpec_val_7 x h6 h7).symm
  rcases le_or_lt x 70 with h8 | h8
  · exact (interp_val_8 x h7 h8).trans (curveSpec_val_8 x h7 h8).symm
  rcases le_or_lt x 80 with h9 | h9
  · exact (interp_val_9 x h8 h9).trans (curveSpec_val_9 x h8 h9).symm
  rcases le_or_lt x 90 with h10 | h10
  · exact (interp_val_10 x h9 h10).trans (curveSpec_val_10 x h9 h10).symm
  rcases le_or_lt x 100 with h11 | h11
  · exact (interp_val_11 x h10 h11).trans (curveSpec_val_11 x h10 h11).symm
  exact (interp_val_12 x h11).trans (curveSpec_val_12 x h11).symm

/-- The spec-side curve never increases. -/
theorem flashPointCurveSpec_antitone (x y : ℚ) (hxy : x ≤ y) :
    flashPointCurveSpec y ≤ flashPointCurveSpec x := by
  rcases le_or_lt x 5 with a1 | a1
  · rcases le_or_lt y 5 with b1 | b1
    · rw [curveSpec_val_1 x a1, curveSpec_val_1 y b1]; linarith
    rcases le_or_lt y 10 with b2 | b2
    · rw [curveSpec_val_1 x a1, curveSpec_val_2 y (by linarith) b2]; linarith
    rcases le_or_lt y 20 with b3 | b3
    · rw [curveSpec_val_1 x a1, curveSpec_val_3 y (by linarith) b3]; linarith
    rcases le_or_lt y 30 with b4 | b4
    · rw [curveSpec_val_1 x a1, curveSpec_val_4 y (by linarith) b4]; linarith
    rcases le_or_lt y 40 with b5 | b5
    · rw [curveSpec_val_1 x a1, curveSpec_val_5 y (by linarith) b5]; linarith
    rcases le_or_lt y 50 with b6 | b6
    · rw [curveSpec_val_1 x a1, curveSpec_val_6 y (by linarith) b6]; linarith
    rcases le_or_lt y 60 with b7 | b7
    · rw [curveSpec_val_1 x a1, curveSpec_val_7 y (by linarith) b7]; linarith
    rcases le_or_lt y 70 with b8 | b8
    · rw [curveSpec_val_1 x a1, curveSpec_val_8 y (by linarith) b8]; linarith
    rcases le_or_lt y 80 with b9 | b9
    · rw [curveSpec_val_1 x a1, curveSpec_val_9 y (by linarith) b9]; linarith
    rcases le_or_lt y 90 with b10 | b10
    · rw [curveSpec_val_1 x a1, curveSpec_val_10 y (by linarith) b10]; linarith
    rcases le_or_lt y 100 with b11 | b11
    · rw [curveSpec_val_1 x a1, curveSpec_val_11 y (by linarith) b11]; linarith
    rw [curveSpec_val_1 x a1, curveSpec_val_12 y (by linarith)]; linarith
  rcases le_or_lt x 10 with a2 | a2
  · rcases le_or_lt y 10 with b2 | b2
    · rw [curveSpec_val_2 x a1 a2, curveSpec_val_2 y (by linarith) b2]; linarith
    rcases le_or_lt y 20 with b3 | b3
    · rw [curveSpec_val_2 x a1 a2, curveSpec_val_3 y (by linarith) b3]; linarith
    rcases le_or_lt y 30 with b4 | b4
    · rw [curveSpec_val_2 x a1 a2, curveSpec_val_4 y (by linarith) b4]; linarith
    rcases le_or_lt y 40 with b5 | b5
    · rw [curveSpec_val_2 x a1 a2, curveSpec_val_5 y (by linarith) b5]; linarith
    rcases le_or_lt y 50 with b6 | b6
    · rw [curveSpec_val_2 x a1 a2, curveSpec_val_6 y (by linarith) b6]; linarith
    rcases le_or_lt y 60 with b7 | b7
    · rw [curveSpec_val_2 x a1 a2, curveSpec_val_7 y (by linarith) b7]; linarith
    rcases le_or_lt y 70 with b8 | b8
    · rw [curveSpec_val_2 x a1 a2, curveSpec_val_8 y (by linarith) b8]; linarith
    rcases le_or_lt y 80 with b9 | b9
    · rw [curveSpec_val_2 x a1 a2, curveSpec_val_9 y (by linarith) b9]; linarith
    rcases le_or_lt y 90 with b10 | b10
    · rw [curveSpec_val_2 x a1 a2, curveSpec_val_10 y (by linarith) b10]; linarith
    rcases le_or_lt y 100 with b11 | b11
    · rw [curveSpec_val_2 x a1 a2, curveSpec_val_11 y (by linarith) b11]; linarith
    rw [curveSpec_val_2 x a1 a2, curveSpec_val_12 y (by linarith)]; linarith
  rcases le_or_lt x 20 with a3 | a3
  · rcases le_or_lt y 20 with b3 | b3
    · rw [curveSpec_val_3 x a2 a3, curveSpec_val_3 y (by linarith) b3]; linarith
    rcases le_or_lt y 30 with b4 | b4
    · rw [curveSpec_val_3 x a2 a3, curveSpec_val_4 y (by linarith) b4]; linarith
    rcases le_or_lt y 40 with b5 | b5
    · rw [curveSpec_val_3 x a2 a3, curveSpec_val_5 y (by linarith) b5]; linarith
    rcases le_or_lt y 50 with b6 | b6
    · rw [curveSpec_val_3 x a2 a3, curveSpec_val_6 y (by linarith) b6]; linarith
    rcases le_or_lt y 60 with b7 | b7
    · rw [curveSpec_val_3 x a2 a3, curveSpec_val_7 y (by linarith) b7]; linarith
    rcases le_or_lt y 70 with b8 | b8
    · rw [curveSpec_val_3 x a2 a3, curveSpec_val_8 y (by linarith) b8]; linarith
    rcases le_or_lt y 80 with b9 | b9
    · rw [curveSpec_val_3 x a2 a3, curveSpec_val_9 y (by linarith) b9]; linarith
    rcases le_or_lt y 90 with b10 | b10
    · rw [curveSpec_val_3 x a2 a3, curveSpec_val_10 y (by linarith) b10]; linarith
    rcases le_or_lt y 100 with b11 | b11
    · rw [curveSpec_val_3 x a2 a3, curveSpec_val_11 y (by linarith) b11]; linarith
    rw [curveSpec_val_3 x a2 a3, curveSpec_val_12 y (by linarith)]; linarith
  rcases le_or_lt x 30 with a4 | a4
  · rcases le_or_lt y 30 with b4 | b4
    · rw [curveSpec_val_4 x a3 a4, curveSpec_val_4 y (by linarith) b4]; linarith
    rcases le_or_lt y 40 with b5 | b5
    · rw [curveSpec_val_4 x a3 a4, curveSpec_val_5 y (by linarith) b5]; linarith
    rcases le_or_lt y 50 with b6 | b6
    · rw [curveSpec_val_4 x a3 a4, curveSpec_val_6 y (by linarith) b6]; linarith
    rcases le_or_lt y 60 with b7 | b7
    · rw [curveSpec_val_4 x a3 a4, curveSpec_val_7 y (by linarith) b7]; linarith
    rcases le_or_lt y 70 with b8 | b8
    · rw [curveSpec_val_4 x a3 a4, curveSpec_val_8 y (by linarith) b8]; linarith
    rcases le_or_lt y 80 with b9 | b9
    · rw [curveSpec_val_4 x a3 a4, curveSpec_val_9 y (by linarith) b9]; linarith
    rcases le_or_lt y 90 with b10 | b10
    · rw [curveSpec_val_4 x a3 a4, curveSpec_val_10 y (by linarith) b10]; linarith
    rcases le_or_lt y 100 with b11 | b11
    · rw [curveSpec_val_4 x a3 a4, curveSpec_val_11 y (by linarith) b11]; linarith
    rw [curveSpec_val_4 x a3 a4, curveSpec_val_12 y (by linarith)]; linarith
  rcases le_or_lt x 40 with a5 | a5
  · rcases le_or_lt y 40 with b5 | b5
    · rw [curveSpec_val_5 x a4 a5, curveSpec_val_5 y (by linarith) b5]; linarith
    rcases le_or_lt y 50 with b6 | b6
    · rw [curveSpec_val_5 x a4 a5, curveSpec_val_6 y (by linarith) b6]; linarith
    rcases le_or_lt y 60 with b7 | b7
    · rw [curveSpec_val_5 x a4 a5, curveSpec_val_7 y (by linarith) b7]; linarith
    rcases le_or_lt y 70 with b8 | b8
    · rw [curveSpec_val_5 x a4 a5, curveSpec_val_8 y (by linarith) b8]; linarith
    rcases le_or_lt y 80 with b9 | b9
    · rw [curveSpec_val_5 x a4 a5, curveSpec_val_9 y (by linarith) b9]; linarith
    rcases le_or_lt y 90 with b10 | b10
    · rw [curveSpec_val_5 x a4 a5, curveSpec_val_10 y (by linarith) b10]; linarith
    rcases le_or_lt y 100 with b11 | b11
    · rw [curveSpec_val_5 x a4 a5, curveSpec_val_11 y (by linarith) b11]; linarith
    rw [curveSpec_val_5 x a4 a5, curveSpec_val_12 y (by linarith)]; linarith
  rcases le_or_lt x 50 with a6 | a6
  · rcases le_or_lt y 50 with b6 | b6
    · rw [curveSpec_val_6 x a5 a6, curveSpec_val_6 y (by linarith) b6]; linarith
    rcases le_or_lt y 60 with b7 | b7
    · rw [curveSpec_val_6 x a5 a6, curveSpec_val_7 y (by linarith) b7]; linarith
    rcases le_or_lt y 70 with b8 | b8
    · rw [curveSpec_val_6 x a5 a6, curveSpec_val_8 y (by linarith) b8]; linarith
    rcases le_or_lt y 80 with b9 | b9
    · rw [curveSpec_val_6 x a5 a6, curveSpec_val_9 y (by linarith) b9]; linarith
    rcases le_or_lt y 90 with b10 | b10
    · rw [curveSpec_val_6 x a5 a6, curveSpec_val_10 y (by linarith) b10]; linarith
    rcases le_or_lt y 100 with b11 | b11
    · rw [curveSpec_val_6 x a5 a6, curveSpec_val_11 y (by linarith) b11]; linarith
    rw [curveSpec_val_6 x a5 a6, curveSpec_val_12 y (by linarith)]; linarith
  rcases le_or_lt x 60 with a7 | a7
  · rcases le_or_lt y 60 with b7 | b7
    · rw [curveSpec_val_7 x a6 a7, curveSpec_val_7 y (by linarith) b7]; linarith
    rcases le_or_lt y 70 with b8 | b8
    · rw [curveSpec_val_7 x a6 a7, curveSpec_val_8 y (by linarith) b8]; linarith
    rcases le_or_lt y 80 with b9 | b9
    · rw [curveSpec_val_7 x a6 a7, curveSpec_val_9 y (by linarith) b9]; linarith
    rcases le_or_lt y 90 with b10 | b10
    · rw [curveSpec_val_7 x a6 a7, curveSpec_val_10 y (by linarith) b10]; linarith
    rcases le_or_lt y 100 with b11 | b11
    · rw [curveSpec_val_7 x a6 a7, curveSpec_val_11 y (by linarith) b11]; linarith
    rw [curveSpec_val_7 x a6 a7, curveSpec_val_12 y (by linarith)]; linarith
  rcases le_or_lt x 70 with a8 | a8
  · rcases le_or_lt y 70 with b8 | b8
    · rw [curveSpec_val_8 x a7 a8, curveSpec_val_8 y (by linarith) b8]; linarith
    rcases le_or_lt y 80 with b9 | b9
    · rw [curveSpec_val_8 x a7 a8, curveSpec_val_9 y (by linarith) b9]; linarith
    rcases le_or_lt y 90 with b10 | b10
    · rw [curveSpec_val_8 x a7 a8, curveSpec_val_10 y (by linarith) b10]; linarith
    rcases le_or_lt y 100 with b11 | b11
    · rw [curveSpec_val_8 x a7 a8, curveSpec_val_11 y (by linarith) b11]; linarith
    rw [curveSpec_val_8 x a7 a8, curveSpec_val_12 y (by linarith)]; linarith
  rcases le_or_lt x 80 with a9 | a9
  · rcases le_or_lt y 80 with b9 | b9
    · rw [curveSpec_val_9 x a8 a9, curveSpec_val_9 y (by linarith) b9]; linarith
    rcases le_or_lt y 90 with b10 | b10
    · rw [curveSpec_val_9 x a8 a9, curveSpec_val_10 y (by linarith) b10]; linarith
    rcases le_or_lt y 100 with b11 | b11
    · rw [curveSpec_val_9 x a8 a9, curveSpec_val_11 y (by linarith) b11]; linarith
    rw [curveSpec_val_9 x a8 a9, curveSpec_val_12 y (by linarith)]; linarith
  rcases le_or_lt x 90 with a10 | a10
  · rcases le_or_lt y 90 with b10 | b10
    · rw [curveSpec_val_10 x a9 a10, curveSpec_val_10 y (by linarith) b10]; linarith
    rcases le_or_lt y 100 with b11 | b11
    · rw [curveSpec_val_10 x a9 a10, curveSpec_val_11 y (by linarith) b11]; linarith
    rw [curveSpec_val_10 x a9 a10, curveSpec_val_12 y (by linarith)]; linarith
  rcases le_or_lt x 100 with a11 | a11
  · rcases le_or_lt y 100 with b11 | b11
    · rw [curveSpec_val_11 x a10 a11, curveSpec_val_11 y (by linarith) b11]; linarith
    rw [curveSpec_val_11 x a10 a11, curveSpec_val_12 y (by linarith)]; linarith
  rw [curveSpec_val_12 x a11, curveSpec_val_12 y (by linarith)]

/-- The interpolation loop yields exactly 21 at 70 % ethanol. -/
theorem interp70 : interpolate 70 flashPoints = 21 := by
  rw [interp_val_8 70 (by norm_num) (by norm_num)]; norm_num

/-- Full evaluation of the estimator at 70 % ethanol. -/
theorem efp70 : estimateFlashPoint 70 =
    ⟨some 21, FlashRating.High, "High flammability / shipping constraints likely"⟩ := by
  rw [estimateFlashPoint]
  rw [if_neg (by norm_num : ¬((70 : ℚ) ≤ 0))]
  simp only [interp70]
  norm_num

/-- On positive inputs the estimator's temperature is the interpolated curve
value. -/
theorem efp_celsius (x : ℚ) (hx : 0 < x) :
    (estimateFlashPoint x).celsius = some (flashPointCurveSpec x) := by
  rw [estimateFlashPoint, if_neg (not_le.mpr hx)]
  simp only [interpolate_eq_curveSpec x hx]
  split_ifs <;> rfl

/-- The `Safe` rating appears exactly on non-positive inputs. -/
theorem efp_safe_iff (x : ℚ) :
    (estimateFlashPoint x).rating = FlashRating.Safe ↔ x ≤ 0 := by
  constructor
  · intro h
    by_contra hpos
    rw [estimateFlashPoint, if_neg hpos] at h
    dsimp only at h
    split_ifs at h
  · intro h
    rw [estimateFlashPoint, if_pos h]

/-- Classification of the three positive-input ratings by the estimated
temperature. -/
theorem efp_classify (x t : ℚ) (hx : 0 < x)
    (ht : (estimateFlashPoint x).celsius = some t) :
    ((estimateFlashPoint x).rating = FlashRating.High ↔ t < 23) ∧
    ((estimateFlashPoint x).rating = FlashRating.Flammable ↔ 23 ≤ t ∧ t < 60) ∧
    ((estimateFlashPoint x).rating = FlashRating.Low ↔ 60 ≤ t) := by
  rw [estimateFlashPoint, if_neg (not_le.mpr hx)] at ht ⊢
  dsimp only at ht ⊢
  split_ifs at ht ⊢ with h1 h2
  · rw [Option.some.injEq] at ht
    subst ht
    exact ⟨iff_of_true rfl h1,
      iff_of_false (by decide) (by push_neg; intro h; linarith),
      iff_of_false (by decide) (by push_neg; linarith)⟩
  · rw [Option.some.injEq] at ht
    subst ht
    rw [not_lt] at h1
    exact ⟨iff_of_false (by decide) (by push_neg; linarith),
      iff_of_true rfl ⟨h1, h2⟩,
      iff_of_false (by decide) (by push_neg; linarith)⟩
  · rw [Option.some.injEq] at ht
    subst ht
    rw [not_lt] at h1 h2
    exact ⟨iff_of_false (by decide) (by push_neg; linarith),
      iff_of_false (by decide) (by push_neg; intro h; linarith),
      iff_of_true rfl h2⟩

/-- C4 (amended): for an ethanol percentage at most 0 the estimator returns a
null temperature, rating `Safe` and the non-flammable-basis warning without
interpolating, and `Safe` occurs only there; for a positive percentage the
temperature is the linear interpolation of the fixed reference curve between
the bracketing control points (13 °C at or beyond the final point), rated
`High` below 23 °C, `Flammable` in [23 °C, 60 °C) and `Low` at 60 °C or
above; in particular input 70 yields exactly 21 °C, which the code rates
`High` (not `Flammable` as the original claim stated). -/
theorem flashPoint_estimator_spec :
    (∀ x : ℚ, x ≤ 0 → estimateFlashPoint x =
      ⟨none, FlashRating.Safe, "Non-flammable solvent basis"⟩) ∧
    (∀ x : ℚ, (estimateFlashPoint x).rating = FlashRating.Safe ↔ x ≤ 0) ∧
    (∀ x : ℚ, 0 < x → (estimateFlashPoint x).celsius = some (flashPointCurveSpec x)) ∧
    (∀ x t : ℚ, 0 < x → (estimateFlashPoint x).celsius = some t →
      (((estimateFlashPoint x).rating = FlashRating.High ↔ t < 23) ∧
       ((estimateFlashPoint x).rating = FlashRating.Flammable ↔ 23 ≤ t ∧ t < 60) ∧
       ((estimateFlashPoint x).rating = FlashRating.Low ↔ 60 ≤ t))) ∧
    estimateFlashPoint 70 = ⟨some 21, FlashRating.High,
      "High flammability / shipping constraints likely"⟩ :=
  ⟨fun x hx => by rw [estimateFlashPoint, if_pos hx],
   efp_safe_iff, efp_celsius, efp_classify, efp70⟩

/-- C4 counterexample: at ethanol 70 % v/v the estimate is exactly 21 °C but
the code rates it `High`, not `Flammable` as the claim's example states. -/
theorem flashPoint_70_not_flammable :
    (estimateFlashPoint 70).celsius = some 21 ∧
    (estimateFlashPoint 70).rating ≠ FlashRating.Flammable := by
  rw [efp70]
  exact ⟨rfl, by decide⟩

/-- C4 witness: the amended theorem applied at the inputs -1 and 70. -/
theorem flashPoint_estimator_spec_witness :
    estimateFlashPoint (-1) = ⟨none, FlashRating.Safe, "Non-flammable solvent basis"⟩ ∧
    (estimateFlashPoint 70).celsius = some (flashPointCurveSpec 70) ∧
    ((estimateFlashPoint 70).rating = FlashRating.High ↔ (21 : ℚ) < 23) :=
  ⟨flashPoint_estimator_spec.1 (-1) (by norm_num),
   flashPoint_estimator_spec.2.2.1 70 (by norm_num),
   (flashPoint_estimator_spec.2.2.2.1 70 21 (by norm_num)
     (by rw [flashPoint_estimator_spec.2.2.2.2])).1⟩

/-- C8: the flash-point estimate never increases with the ethanol
percentage: for 0 < x ≤ y both estimates exist and the estimate at y is at
most the estimate at x. -/
theorem flashPoint_monotone (x y : ℚ) (hx : 0 < x) (hxy : x ≤ y) :
    ∃ tx ty : ℚ, (estimateFlashPoint x).celsius = some tx ∧
      (estimateFlashPoint y).celsius = some ty ∧ ty ≤ tx :=
  ⟨flashPointCurveSpec x, flashPointCurveSpec y,
   efp_celsius x hx, efp_celsius y (lt_of_lt_of_le hx hxy),
   flashPointCurveSpec_antitone x y hxy⟩

/-- C8 witness: the monotonicity theorem applied at 10 and 50. -/
theorem flashPoint_monotone_witness :
    ∃ tx ty : ℚ, (estimateFlashPoint 10).celsius = some tx ∧
      (estimateFlashPoint 50).celsius = some ty ∧ ty ≤ tx :=
  flashPoint_monotone 10 50 (by norm_num) (by norm_num)

/-- Characterization of the `calculateStats` accumulation loop as sums over
the formula, for an arbitrary starting accumulator. -/
theorem statsStep_foldl (ingredients : List Ingredient) (formula : List FormulaItem) :
    ∀ acc : StatsAcc,
      (formula.foldl (statsStep ingredients) acc).totalWeight =
        acc.totalWeight + (formula.map (fun i => i.weight)).sum ∧
      (formula.foldl (statsStep ingredients) acc).totalVolume =
        acc.totalVolume + (formula.map (fun i => i.weight / itemDensity ingredients i)).sum ∧
      (formula.foldl (statsStep ingredients) acc).totalCost =
        acc.totalCost + (formula.map (fun i => i.weight / 1000 * i.costPerKg)).sum ∧
      (formula.foldl (statsStep ingredients) acc).concentrateMass =
        acc.concentrateMass + (formula.map (fun i => i.weight * i.dilution)).sum := by
  induction formula with
  | nil => intro acc; simp
  | cons a l ih =>
    intro acc
    obtain ⟨h1, h2, h3, h4⟩ := ih (statsStep ingredients acc a)
    simp only [List.foldl_cons, List.map_cons, List.sum_cons]
    rw [h1, h2, h3, h4]
    simp only [statsStep]
    refine ⟨by ring, by ring, by ring, by ring⟩

/-- The four numeric totals of `calculateStats` as sums over the formula,
together with the all-zero totals of the empty formula. -/
theorem calculateStats_totals (ingredients : List Ingredient) (formula : List FormulaItem) :
    (calculateStats ingredients formula).totalWeight = (formula.map (fun i => i.weight)).sum ∧
    (calculateStats ingredients formula).totalVolume =
      (formula.map (fun i => i.weight / itemDensity ingredients i)).sum ∧
    (calculateStats ingredients formula).totalCost =
      (formula.map (fun i => i.weight / 1000 * i.costPerKg)).sum ∧
    (calculateStats ingredients formula).concentrateMass =
      (formula.map (fun i => i.weight * i.dilution)).sum ∧
    ((calculateStats ingredients ([] : List FormulaItem)).totalWeight = 0 ∧
     (calculateStats ingredients ([] : List FormulaItem)).totalVolume = 0 ∧
     (calculateStats ingredients ([] : List FormulaItem)).totalCost = 0 ∧
     (calculateStats ingredients ([] : List FormulaItem)).concentrateMass = 0) := by
  obtain ⟨h1, h2, h3, h4⟩ := statsStep_foldl ingredients formula ⟨0, 0, 0, 0⟩
  refine ⟨?_, ?_, ?_, ?_, by norm_num [calculateStats], by norm_num [calculateStats],
    by norm_num [calculateStats], by norm_num [calculateStats]⟩ <;>
    simp only [calculateStats] <;> simp [h1, h2, h3, h4]

/-- C3: `calculateStats` returns `totalWeight` as the sum of the item
weights, `totalVolume` as the sum of weight over resolved density
(custom density, else master-ingredient density, else 1), `totalCost` as the
sum of (weight / 1000) × costPerKg, and `concentrateMass` as the sum of
weight × dilution; the empty formula yields all totals zero. -/
theorem stats_totals_spec (ingredients : List Ingredient) (formula : List FormulaItem) :
    (calculateStats ingredients formula).totalWeight = (formula.map (fun i => i.weight)).sum ∧
    (calculateStats ingredients formula).totalVolume =
      (formula.map (fun i => i.weight / itemDensity ingredients i)).sum ∧
    (calculateStats ingredients formula).totalCost =
      (formula.map (fun i => i.weight / 1000 * i.costPerKg)).sum ∧
    (calculateStats ingredients formula).concentrateMass =
      (formula.map (fun i => i.weight * i.dilution)).sum ∧
    ((calculateStats ingredients ([] : List FormulaItem)).totalWeight = 0 ∧
     (calculateStats ingredients ([] : List FormulaItem)).totalVolume = 0 ∧
     (calculateStats ingredients ([] : List FormulaItem)).totalCost = 0 ∧
     (calculateStats ingredients ([] : List FormulaItem)).concentrateMass = 0) :=
  calculateStats_totals ingredients formula

/-- Weighted-dilution sums are bounded by weight sums, with equality exactly
when every item is neat or weightless. -/
theorem sum_dilution_le (l : List FormulaItem)
    (h : ∀ item ∈ l, 0 ≤ item.weight ∧ item.dilution ≤ 1) :
    ((l.map (fun i => i.weight * i.dilution)).sum ≤ (l.map (fun i => i.weight)).sum) ∧
    (((l.map (fun i => i.weight * i.dilution)).sum = (l.map (fun i => i.weight)).sum) ↔
      ∀ item ∈ l, item.dilution = 1 ∨ item.weight = 0) := by
  induction l with
  | nil => simp
  | cons a l ih =>
    have ha := h a (List.mem_cons_self a l)
    obtain ⟨ih1, ih2⟩ := ih (fun i hi => h i (List.mem_cons_of_mem a hi))
    have hterm : a.weight * a.dilution ≤ a.weight := by nlinarith [ha.1, ha.2]
    simp only [List.map_cons, List.sum_cons, List.mem_cons]
    constructor
    · linarith
    · constructor
      · intro heq
        have e1 : a.weight * a.dilution = a.weight := by linarith
        have e2 : (l.map (fun i => i.weight * i.dilution)).sum =
            (l.map (fun i => i.weight)).sum := by linarith
        intro i hi
        rcases hi with rfl | hi
        · have hz : i.weight * (i.dilution - 1) = 0 := by linear_combination e1
          rcases mul_eq_zero.mp hz with hw | hd
          · exact Or.inr hw
          · exact Or.inl (by linarith)
        · exact ih2.mp e2 i hi
      · intro hall
        have e1 : a.weight * a.dilution = a.weight := by
          rcases hall a (Or.inl rfl) with hd | hw
          · rw [hd, mul_one]
          · rw [hw, zero_mul]
        have e2 : (l.map (fun i => i.weight * i.dilution)).sum =
            (l.map (fun i => i.weight)).sum :=
          ih2.mpr (fun i hi => hall i (Or.inr hi))
        rw [e1, e2]

/-- C7 (amended): over the data-model invariant (weight ≥ 0 and
0 < dilution ≤ 1 for every item), `concentrateMass ≤ totalWeight`, with
equality exactly when every item has dilution 1 or itself has zero weight. -/
theorem concentrateMass_le_totalWeight (ingredients : List Ingredient)
    (formula : List FormulaItem)
    (h : ∀ item ∈ formula, 0 ≤ item.weight ∧ 0 < item.dilution ∧ item.dilution ≤ 1) :
    (calculateStats ingredients formula).concentrateMass ≤
      (calculateStats ingredients formula).totalWeight ∧
    ((calculateStats ingredients formula).concentrateMass =
        (calculateStats ingredients formula).totalWeight ↔
      ∀ item ∈ formula, item.dilution = 1 ∨ item.weight = 0) := by
  obtain ⟨hw, _, _, hc, _⟩ := calculateStats_totals ingredients formula
  rw [hw, hc]
  exact sum_dilution_le formula (fun i hi => ⟨(h i hi).1, (h i hi).2.2⟩)

/-- C7 witness: the amended theorem at a one-item half-diluted formula. -/
theorem concentrateMass_le_totalWeight_witness :
    (calculateStats [] [{ baseItem with weight := 2, dilution := 1/2 }]).concentrateMass ≤
      (calculateStats [] [{ baseItem with weight := 2, dilution := 1/2 }]).totalWeight ∧
    ((calculateStats [] [{ baseItem with weight := 2, dilution := 1/2 }]).concentrateMass =
        (calculateStats [] [{ baseItem with weight := 2, dilution := 1/2 }]).totalWeight ↔
      ∀ item ∈ [{ baseItem with weight := 2, dilution := 1/2 }],
        item.dilution = 1 ∨ item.weight = 0) :=
  concentrateMass_le_totalWeight [] _
    (by intro i hi; rw [List.mem_singleton] at hi; subst hi; norm_num)

/-- C7 counterexample: a formula mixing a neat weighted item with a diluted
zero-weight item reaches `concentrateMass = totalWeight` although not every
item has dilution 1 and the total weight is not zero. -/
theorem concentrate_equality_counterexample :
    (calculateStats [] [{ baseItem with weight := 5, dilution := 1 },
        { baseItem with weight := 0, dilution := 1/2 }]).concentrateMass =
      (calculateStats [] [{ baseItem with weight := 5, dilution := 1 },
        { baseItem with weight := 0, dilution := 1/2 }]).totalWeight ∧
    (∀ item ∈ [{ baseItem with weight := 5, dilution := 1 },
        { baseItem with weight := 0, dilution := 1/2 }],
      0 < item.dilution ∧ item.dilution ≤ 1) ∧
    ¬ (∀ item ∈ [{ baseItem with weight := 5, dilution := 1 },
        { baseItem with weight := 0, dilution := 1/2 }], item.dilution = 1) ∧
    (calculateStats [] [{ baseItem with weight := 5, dilution := 1 },
        { baseItem with weight := 0, dilution := 1/2 }]).totalWeight ≠ 0 := by
  obtain ⟨hw, _, _, hc, _⟩ := calculateStats_totals []
    [{ baseItem with weight := 5, dilution := 1 }, { baseItem with weight := 0, dilution := 1/2 }]
  refine ⟨by rw [hw, hc]; norm_num, ?_, ?_, by rw [hw]; norm_num⟩
  · intro i hi
    rcases List.mem_cons.mp hi with rfl | hi
    · norm_num
    · rw [List.mem_singleton] at hi; subst hi; norm_num
  · intro hall
    have := hall { baseItem with weight := 0, dilution := 1/2 }
      (by simp)
    norm_num at this

/-- C5: an item whose dilution lies strictly between 0 and 1 contributes
solvent mass only through the diluted-carrier branch — weight × (1 −
dilution) grams under its declared carrier name, defaulting to Ethanol when
that name is missing or `None` — with the direct-solvent branch never
evaluated regardless of the family/note tags; an item with dilution 1
contributes its full weight under its normalized name exactly when its family
or note is `Solvent`, and nothing otherwise. -/
theorem solvent_branch_precedence :
    (∀ item : FormulaItem, 0 < item.dilution → item.dilution < 1 →
      solventContribution item =
        ((if item.solvent = "" ∨ item.solvent = "None" then "Ethanol" else item.solvent),
         item.weight * (1 - item.dilution))) ∧
    (∀ item : FormulaItem, item.dilution = 1 →
      solventContribution item =
        (if item.family = "Solvent" ∨ item.note = "Solvent"
         then (normalizeSolventName item.name, item.weight)
         else ("None", 0))) := by
  constructor
  · intro item h0 h1
    simp only [solventContribution]
    rw [if_neg (ne_of_gt h0)]
    rw [if_pos h1]
    split_ifs <;> simp_all
  · intro item hd
    simp only [solventContribution, hd]
    norm_num

/-- C5 witness: a half-diluted `Solvent`-tagged item still contributes
through the carrier branch only, and a neat `Solvent`-tagged item
contributes its full weight. -/
theorem solvent_branch_precedence_witness :
    solventContribution { baseItem with weight := 10, dilution := 1/2, family := "Solvent" } =
      ("Ethanol", 5) ∧
    solventContribution { baseItem with weight := 7, dilution := 1, name := "DPG", family := "Solvent" } =
      ("DPG", 7) := by
  constructor
  · have h := solvent_branch_precedence.1
      { baseItem with weight := 10, dilution := 1/2, family := "Solvent" }
      (by norm_num) (by norm_num)
    rw [h]
    norm_num [baseItem]
  · have h := solvent_branch_precedence.2
      { baseItem with weight := 7, dilution := 1, name := "DPG", family := "Solvent" } rfl
    rw [h]
    norm_num [baseItem, normalizeSolventName, strToLower, strIncludes, containsChars,
      startsWithChars]
    decide

/-- Projection of the solvent breakdown as the stable sort of the entry rows
of the accumulated map. -/
theorem csb_breakdown_eq (formula : List FormulaItem) :
    (calculateSolventBreakdown formula).breakdown =
      sortByMassDesc (solvEntries (formula.foldl solvStep ⟨[], 0, 0⟩)) := rfl

/-- Projection of the accumulated total solvent mass. -/
theorem csb_totalMass_eq (formula : List FormulaItem) :
    (calculateSolventBreakdown formula).totalSolventMass =
      (formula.foldl solvStep ⟨[], 0, 0⟩).totalMass := rfl

/-- Updating the solvent map adds the new mass to the map's mass sum. -/
theorem addSolv_mass_sum (m : List (String × ℚ × ℚ)) (name : String) (ma v : ℚ) :
    ((addSolv m name ma v).map (fun e => e.2.1)).sum =
      (m.map (fun e => e.2.1)).sum + ma := by
  induction m with
  | nil => simp [addSolv]
  | cons a l ih =>
    simp only [addSolv]
    split_ifs with h
    · simp [List.map_cons, List.sum_cons]; ring
    · simp only [List.map_cons, List.sum_cons, ih]; ring

/-- One accumulation step keeps the map's mass sum equal to the running
total. -/
theorem solvStep_mass_inv (acc : SolvAcc) (item : FormulaItem)
    (h : (acc.map.map (fun e => e.2.1)).sum = acc.totalMass) :
    ((solvStep acc item).map.map (fun e => e.2.1)).sum = (solvStep acc item).totalMass := by
  simp only [solvStep]
  split_ifs with hc
  · dsimp only
    rw [addSolv_mass_sum, h]
  · exact h

/-- The accumulation loop keeps the map's mass sum equal to the running
total. -/
theorem solv_foldl_mass_inv (formula : List FormulaItem) :
    ∀ acc : SolvAcc, (acc.map.map (fun e => e.2.1)).sum = acc.totalMass →
      (((formula.foldl solvStep acc).map.map (fun e => e.2.1)).sum =
        (formula.foldl solvStep acc).totalMass) := by
  induction formula with
  | nil => intro acc h; exact h
  | cons a l ih =>
    intro acc h
    exact ih (solvStep acc a) (solvStep_mass_inv acc a h)

/-- Stable descending insertion preserves sums of any entry function. -/
theorem insertDescByMass_sum (f : SolventBreakdownEntry → ℚ) (e : SolventBreakdownEntry) :
    ∀ l : List SolventBreakdownEntry,
      ((insertDescByMass e l).map f).sum = f e + (l.map f).sum := by
  intro l
  induction l with
  | nil => simp [insertDescByMass]
  | cons b bs ih =>
    simp only [insertDescByMass]
    split_ifs with h
    · simp [List.map_cons, List.sum_cons]
    · simp only [List.map_cons, List.sum_cons, ih]; ring

/-- The stable descending sort preserves sums of any entry function. -/
theorem sortByMassDesc_sum (f : SolventBreakdownEntry → ℚ) (l : List SolventBreakdownEntry) :
    ((sortByMassDesc l).map f).sum = (l.map f).sum := by
  suffices h : ∀ acc : List SolventBreakdownEntry,
      ((l.foldl (fun acc e => insertDescByMass e acc) acc).map f).sum =
        (acc.map f).sum + (l.map f).sum by
    simpa [sortByMassDesc] using h []
  induction l with
  | nil => intro acc; simp
  | cons a bs ih =>
    intro acc
    simp only [List.foldl_cons, List.map_cons, List.sum_cons, ih (insertDescByMass a acc),
      insertDescByMass_sum]
    ring

/-- Sums distribute over the per-row percentage map. -/
theorem sum_div_mul_hundred (l : List ℚ) (T : ℚ) :
    ((l.map (fun m => m / T * 100)).sum) = l.sum / T * 100 := by
  induction l with
  | nil => simp
  | cons a bs ih =>
    simp only [List.map_cons, List.sum_cons, ih]
    ring

/-- C9: the breakdown row masses sum to `totalSolventMass`, and whenever that
total is positive the `massPct` fields sum to exactly 100. -/
theorem solvent_breakdown_sums (formula : List FormulaItem) :
    (((calculateSolventBreakdown formula).breakdown.map (fun b => b.mass)).sum =
      (calculateSolventBreakdown formula).totalSolventMass) ∧
    (0 < (calculateSolventBreakdown formula).totalSolventMass →
      ((calculateSolventBreakdown formula).breakdown.map (fun b => b.massPct)).sum = 100) := by
  have hinv := solv_foldl_mass_inv formula ⟨[], 0, 0⟩ (by simp)
  rw [csb_breakdown_eq, csb_totalMass_eq]
  constructor
  · rw [sortByMassDesc_sum]
    simp only [solvEntries, List.map_map]
    have : ((formula.foldl solvStep ⟨[], 0, 0⟩).map.map
        (fun e => e.2.1)).sum = (formula.foldl solvStep ⟨[], 0, 0⟩).totalMass := hinv
    simpa using this
  · intro hpos
    rw [sortByMassDesc_sum]
    simp only [solvEntries, List.map_map]
    have hpct : ∀ e : String × ℚ × ℚ,
        ((fun b => b.massPct) ∘ (fun e =>
          ({ name := e.1, mass := e.2.1, volume := e.2.2,
             massPct := if 0 < (formula.foldl solvStep ⟨[], 0, 0⟩).totalMass
               then e.2.1 / (formula.foldl solvStep ⟨[], 0, 0⟩).totalMass * 100 else 0,
             volPct := if 0 < (formula.foldl solvStep ⟨[], 0, 0⟩).totalVolume
               then e.2.2 / (formula.foldl solvStep ⟨[], 0, 0⟩).totalVolume * 100 else 0 } :
            SolventBreakdownEntry))) e =
          e.2.1 / (formula.foldl solvStep ⟨[], 0, 0⟩).totalMass * 100 := by
      intro e
      simp [if_pos hpos]
    rw [List.map_congr_left (fun e _ => hpct e)]
    have hs : ((formula.foldl solvStep ⟨[], 0, 0⟩).map.map
        (fun e => e.2.1 / (formula.foldl solvStep ⟨[], 0, 0⟩).totalMass * 100)).sum =
        ((formula.foldl solvStep ⟨[], 0, 0⟩).map.map (fun e => e.2.1)).sum /
          (formula.foldl solvStep ⟨[], 0, 0⟩).totalMass * 100 := by
      rw [← sum_div_mul_hundred]
      simp [List.map_map]
      rfl
    rw [hs, hinv]
    field_simp

/-- C9 witness: the sums theorem at a one-item formula with 5 g of carrier
ethanol. -/
theorem solvent_breakdown_sums_witness :
    ((((calculateSolventBreakdown [{ baseItem with weight := 10, dilution := 1/2 }]).breakdown.map
        (fun b => b.mass)).sum =
      (calculateSolventBreakdown [{ baseItem with weight := 10, dilution := 1/2 }]).totalSolventMass)) ∧
    (((calculateSolventBreakdown [{ baseItem with weight := 10, dilution := 1/2 }]).breakdown.map
        (fun b => b.massPct)).sum = 100) :=
  ⟨(solvent_breakdown_sums [{ baseItem with weight := 10, dilution := 1/2 }]).1,
   (solvent_breakdown_sums [{ baseItem with weight := 10, dilution := 1/2 }]).2
     (by rw [csb_totalMass_eq]
         norm_num [List.foldl, solvStep, solventContribution, baseItem, addSolv,
           solventDensity, SOLVENT_DENSITIES]
         simp)⟩

/-- The empty accumulator records no mass. -/
theorem massOf_nil (cas : String) : massOf [] cas = 0 := rfl

/-- Reading the accumulator head: the head key shadows the tail. -/
theorem massOf_cons (c : String) (m0 : ℚ) (l : List (String × ℚ)) (cas : String) :
    massOf ((c, m0) :: l) cas = if cas = c then m0 else massOf l cas := by
  simp only [massOf, List.lookup]
  cases hbeq : cas == c
  · have hne : cas ≠ c := by simpa using hbeq
    simp [hne]
  · have heq : cas = c := by simpa using hbeq
    simp [heq]

/-- The additive accumulator update adds exactly to the queried key. -/
theorem massOf_addMass (k : String) (v : ℚ) (cas : String) :
    ∀ m : List (String × ℚ),
      massOf (addMass m k v) cas = massOf m cas + (if k = cas then v else 0) := by
  intro m
  induction m with
  | nil =>
    show massOf [(k, v)] cas = massOf [] cas + (if k = cas then v else 0)
    rw [massOf_cons, massOf_nil]
    by_cases h : cas = k
    · simp [h]
    · rw [if_neg h, if_neg (fun hh : k = cas => h hh.symm)]
      ring
  | cons a rest ih =>
    obtain ⟨c, m0⟩ := a
    by_cases hck : c = k
    · subst hck
      rw [show addMass ((c, m0) :: rest) c v = (c, m0 + v) :: rest from by simp [addMass]]
      rw [massOf_cons, massOf_cons]
      by_cases h : cas = c
      · rw [if_pos h, if_pos h, if_pos h.symm]
      · rw [if_neg h, if_neg h, if_neg (fun hh : c = cas => h hh.symm)]
        ring
    · rw [show addMass ((c, m0) :: rest) k v = (c, m0) :: addMass rest k v from by
        simp [addMass, hck]]
      rw [massOf_cons, massOf_cons, ih]
      by_cases h : cas = c
      · have hkc : ¬(k = cas) := fun hk => hck (hk.trans h).symm
        rw [if_pos h, if_pos h, if_neg hkc]
        ring
      · rw [if_neg h, if_neg h]

/-- The constituent expansion fold adds the filtered fraction masses of the
queried CAS. -/
theorem massOf_constituents_foldl (r : ℚ) (cas : String) :
    ∀ (cs : List NCSConstituent) (acc : List (String × ℚ)),
      massOf (cs.foldl (fun a c => addMass a c.cas (r * c.percent)) acc) cas =
        massOf acc cas +
          ((cs.filter (fun c => c.cas = cas)).map (fun c => r * c.percent)).sum := by
  intro cs
  induction cs with
  | nil => intro acc; simp
  | cons c rest ih =>
    intro acc
    simp only [List.foldl_cons]
    rw [ih, massOf_addMass]
    by_cases h : c.cas = cas
    · simp only [List.filter_cons, h, if_pos h]
      simp
      ring
    · simp only [List.filter_cons, if_neg h]
      simp [h]

/-- The direct-attribution stage adds exactly the spec-side direct
contribution for the queried CAS. -/
theorem massOf_directStage (acc : List (String × ℚ)) (item : FormulaItem) (cas : String) :
    massOf (if strTrim item.cas ≠ "" ∧ strTrim item.cas ≠ "Mixture"
            then addMass acc (strTrim item.cas) (item.weight * item.dilution) else acc) cas =
      massOf acc cas + directContribution item cas := by
  split_ifs with hcond
  · rw [massOf_addMass, directContribution]
    by_cases h : strTrim item.cas = cas
    · rw [if_pos h,
        if_pos ⟨h, fun hq => hcond.1 (h.trans hq), fun hq => hcond.2 (h.trans hq)⟩]
    · rw [if_neg h, if_neg (fun hc => h hc.1)]
  · rw [directContribution,
      if_neg (fun hc => hcond ⟨fun hq => hc.2.1 (hc.1.symm.trans hq),
        fun hq => hc.2.2 (hc.1.symm.trans hq)⟩)]
    ring

/-- One compliance-accumulation step adds the direct and the hidden
contribution of the item, for every CAS at once. -/
theorem massOf_casMassStep (acc : List (String × ℚ)) (item : FormulaItem) (cas : String) :
    massOf (casMassStep acc item) cas =
      massOf acc cas + directContribution item cas + hiddenContribution item cas := by
  unfold casMassStep hiddenContribution
  cases ht : truthyId item.ingredientId with
  | none =>
    dsimp only
    rw [massOf_directStage]
    ring
  | some iid =>
    dsimp only
    cases hf : NCS_DATA.find? (fun n => n.id = iid) with
    | none =>
      rw [massOf_directStage]
      ring
    | some prof =>
      rw [massOf_constituents_foldl, massOf_directStage]

/-- The accumulated mass of every CAS is the formula-wide sum of per-item
direct plus hidden contributions. -/
theorem massByCas_characterization (formula : List FormulaItem) (cas : String) :
    massOf (formula.foldl casMassStep []) cas =
      (formula.map (fun item =>
        directContribution item cas + hiddenContribution item cas)).sum := by
  suffices h : ∀ acc : List (String × ℚ),
      massOf (formula.foldl casMassStep acc) cas =
        massOf acc cas + (formula.map (fun item =>
          directContribution item cas + hiddenContribution item cas)).sum by
    simpa [massOf_nil] using h []
  induction formula with
  | nil => intro acc; simp
  | cons a l ih =>
    intro acc
    simp only [List.foldl_cons, List.map_cons, List.sum_cons]
    rw [ih, massOf_casMassStep]
    ring

/-- Trimming the `Mixture` sentinel is the identity. -/
theorem strTrim_mixture : strTrim "Mixture" = "Mixture" := by decide

/-- Concrete accumulation of the bergamot example: only the four hidden
constituents are attributed, the direct `Mixture` CAS is skipped. -/
theorem berg_massByCas :
    casMassStep [] bergItem =
      [("5989-27-5", (400 : ℚ)), ("78-70-6", 120), ("5392-40-5", 7), ("484-20-8", 2)] := by
  have e1 : truthyId bergItem.ingredientId = some "bergamot_oil" := rfl
  have e2 : NCS_DATA.find? (fun n => n.id = "bergamot_oil") =
      some ⟨"bergamot_oil", [⟨"Limonene", "5989-27-5", 0.40⟩, ⟨"Linalool", "78-70-6", 0.12⟩,
        ⟨"Citral", "5392-40-5", 0.007⟩, ⟨"Berzapten", "484-20-8", 0.002⟩]⟩ := rfl
  have ec : strTrim bergItem.cas = "Mixture" := by decide
  have ew : bergItem.weight = 1000 := rfl
  have ed : bergItem.dilution = 1 := rfl
  simp only [casMassStep, ec, e1, e2, ew, ed]
  norm_num [addMass]
  simp

/-- Concrete compliance report of the bergamot example with a symbolic
category-4 limit L: one Berzapten row of 2 g at concentration 1/500, limit
L/100, compliant exactly when 1/5 ≤ L. -/
theorem berg_rows (L : ℚ) :
    (checkCompliance (bergIfra L) [bergItem] 1000 "4").map
        (fun r => (r.cas, r.totalMass, r.concentration, r.limit, r.reason)) =
      [("484-20-8", 2, 1/500, L/100, "Restriction")] ∧
    (checkCompliance (bergIfra L) [bergItem] 1000 "4").map (fun r => r.isCompliant) =
      [decide ((1/5 : ℚ) ≤ L)] := by
  have hne : ¬((1000 : ℚ) = 0) := by norm_num
  simp only [checkCompliance, if_neg hne, List.foldl_cons, List.foldl_nil, berg_massByCas]
  simp only [mkComplianceRows, bergIfra, List.filterMap, List.lookup, lookupLimit]
  norm_num
  by_cases hc : ((500 : ℚ))⁻¹ ≤ L / 100
  · have hb : decide (((500 : ℚ))⁻¹ ≤ L / 100) = true := decide_eq_true hc
    have hb2 : decide (((5 : ℚ))⁻¹ ≤ L) = true := decide_eq_true (by linarith)
    simp [hb, hb2, List.filter]
  · have hb : decide (((500 : ℚ))⁻¹ ≤ L / 100) = false := decide_eq_false hc
    have hb2 : decide (((5 : ℚ))⁻¹ ≤ L) = false := decide_eq_false (fun h => hc (by linarith))
    simp [hb, hb2, List.filter]

/-- C2: hidden-constituent mass goes into the same per-CAS accumulator as
direct-CAS mass, additively: every accumulated CAS mass is the sum over
items of direct plus hidden contributions.  In particular the one-item
bergamot formula (1000 g, dilution 1, CAS `Mixture`, id `bergamot_oil`) at
batch weight 1000 in category "4" yields exactly one row, for Berzapten CAS
484-20-8, with 2 g attributed, concentration 2/1000 = 1/500, limit L/100,
and the row is compliant exactly when the category limit L is at least
0.2. -/
theorem hidden_constituent_additive :
    (∀ (formula : List FormulaItem) (cas : String),
      massOf (formula.foldl casMassStep []) cas =
        (formula.map (fun item =>
          directContribution item cas + hiddenContribution item cas)).sum) ∧
    (∀ L : ℚ,
      (checkCompliance (bergIfra L) [bergItem] 1000 "4").map
          (fun r => (r.cas, r.totalMass, r.concentration, r.limit, r.reason)) =
        [("484-20-8", 2, 1/500, L/100, "Restriction")] ∧
      (checkCompliance (bergIfra L) [bergItem] 1000 "4").map (fun r => r.isCompliant) =
        [decide ((1/5 : ℚ) ≤ L)]) :=
  ⟨massByCas_characterization, berg_rows⟩

/-- C1 (amended): every emitted compliance row's limit follows the code's
lookup-first rule — the per-category map value when the target category is
recorded (even for prohibited-typed entries), else 0 for prohibited-typed
entries, else 100 — and when the category is absent and the entry is not
prohibited the limit is 100 % and the row is compliant exactly when its
concentration is at most 100 %. -/
theorem compliance_limit_rule (ifra : List (String × IFRAEntry)) (formula : List FormulaItem)
    (w : ℚ) (cat : String) (r : ComplianceResult)
    (hr : r ∈ checkCompliance ifra formula w cat) :
    ∃ entry : IFRAEntry, ifra.lookup r.cas = some entry ∧
      r.limit = (match lookupLimit entry cat with
        | some v => v
        | none => if entry.type = "prohibited" then (0 : ℚ) else 100) / 100 ∧
      (r.isCompliant = true ↔ r.concentration ≤ r.limit) ∧
      (lookupLimit entry cat = none → entry.type ≠ "prohibited" →
        r.limit = 1 ∧ (r.isCompliant = true ↔ r.concentration ≤ 1)) := by
  by_cases hw : w = 0
  · rw [checkCompliance, if_pos hw] at hr
    exact absurd hr (List.not_mem_nil r)
  · rw [checkCompliance, if_neg hw] at hr
    dsimp only at hr
    have hmem : r ∈ mkComplianceRows ifra w cat (formula.foldl casMassStep [])
        (formula.foldl casSourcesStep []) := by
      rcases List.mem_append.mp hr with h | h
      · exact (List.mem_filter.mp h).1
      · exact (List.mem_filter.mp h).1
    rw [mkComplianceRows] at hmem
    obtain ⟨p, hp, hf⟩ := List.mem_filterMap.mp hmem
    cases hlk : List.lookup p.1 ifra with
    | none =>
      rw [hlk] at hf
      simp at hf
    | some entry =>
      rw [hlk] at hf
      dsimp only at hf
      rw [Option.some.injEq] at hf
      subst hf
      refine ⟨entry, hlk, rfl, decide_eq_true_iff, ?_⟩
      intro hnone hnp
      have hl : (match lookupLimit entry cat with
          | some v => v
          | none => if entry.type = "prohibited" then (0 : ℚ) else 100) / 100 = 1 := by
        rw [hnone]
        dsimp only
        rw [if_neg hnp]
        norm_num
      exact ⟨hl, by rw [← hl]; exact decide_eq_true_iff⟩

/-- Concrete report for the prohibited-typed entry whose map also records
the category: the map value wins. -/
theorem x_rows :
    (checkCompliance ifraX [itemX] 1000 "4").map (fun r => (r.cas, r.limit, r.reason)) =
      [("111-11-1", 1/2, "Prohibited")] := by
  have hne : ¬((1000 : ℚ) = 0) := by norm_num
  have e1 : truthyId itemX.ingredientId = none := rfl
  have ec : strTrim itemX.cas = "111-11-1" := by decide
  have ew : itemX.weight = 10 := rfl
  have ed : itemX.dilution = 1 := rfl
  simp only [checkCompliance, if_neg hne, List.foldl_cons, List.foldl_nil,
    casMassStep, casSourcesStep, e1, ec, ew, ed]
  norm_num [addMass, addSource]
  simp only [mkComplianceRows, ifraX, List.filterMap, List.lookup, lookupLimit]
  norm_num

/-- Concrete report for a restricted entry with no limits map: the limit
defaults to 100 % but an over-concentrated row is still non-compliant. -/
theorem y_rows :
    (checkCompliance ifraY [itemY] 1000 "4").map (fun r => (r.cas, r.limit, r.isCompliant)) =
      [("222-22-2", 1, false)] := by
  have hne : ¬((1000 : ℚ) = 0) := by norm_num
  have e1 : truthyId itemY.ingredientId = none := rfl
  have ec : strTrim itemY.cas = "222-22-2" := by decide
  have ew : itemY.weight = 2000 := rfl
  have ed : itemY.dilution = 1 := rfl
  simp only [checkCompliance, if_neg hne, List.foldl_cons, List.foldl_nil,
    casMassStep, casSourcesStep, e1, ec, ew, ed]
  norm_num [addMass, addSource]
  simp only [mkComplianceRows, ifraY, List.filterMap, List.lookup, lookupLimit]
  norm_num
  simp

/-- Full concrete report of the witness fixture. -/
theorem w_rows :
    checkCompliance ifraW [itemW] 1000 "4" =
      [{ cas := "333-33-3", name := "WSubstance", totalMass := 100, concentration := 1/10
         limit := 1/2, isCompliant := true, sources := ["W"], reason := "Restriction" }] := by
  have hne : ¬((1000 : ℚ) = 0) := by norm_num
  have e1 : truthyId itemW.ingredientId = none := rfl
  have ec : strTrim itemW.cas = "333-33-3" := by decide
  have ew : itemW.weight = 100 := rfl
  have ed : itemW.dilution = 1 := rfl
  have en : itemW.name = "W" := rfl
  simp only [checkCompliance, if_neg hne, List.foldl_cons, List.foldl_nil,
    casMassStep, casSourcesStep, e1, ec, ew, ed, en]
  norm_num [addMass, addSource]
  simp only [mkComplianceRows, ifraW, List.filterMap, List.lookup, lookupLimit]
  norm_num
  simp

/-- The witness fixture's report as the named row. -/
theorem w_rows_rowW : checkCompliance ifraW [itemW] 1000 "4" = [rowW] := by
  rw [w_rows]; rfl

/-- C1 witness: the limit rule applied to the concrete row of the witness
fixture. -/
theorem compliance_limit_rule_witness :
    ∃ entry : IFRAEntry, ifraW.lookup rowW.cas = some entry ∧
      rowW.limit = (match lookupLimit entry "4" with
        | some v => v
        | none => if entry.type = "prohibited" then (0 : ℚ) else 100) / 100 ∧
      (rowW.isCompliant = true ↔ rowW.concentration ≤ rowW.limit) ∧
      (lookupLimit entry "4" = none → entry.type ≠ "prohibited" →
        rowW.limit = 1 ∧ (rowW.isCompliant = true ↔ rowW.concentration ≤ 1)) :=
  compliance_limit_rule ifraW [itemW] 1000 "4" rowW
    (by rw [w_rows_rowW]; exact List.mem_singleton.mpr rfl)

/-- C1 counterexample: a prohibited-typed entry whose limits map records the
category gets the map's 50 % limit, not 0 %; and a category absent from a
non-prohibited entry's map yields limit 100 % with a non-compliant row when
the concentration exceeds 100 %. -/
theorem prohibited_precedence_counterexample :
    (checkCompliance ifraX [itemX] 1000 "4").map (fun r => (r.cas, r.limit, r.reason)) =
      [("111-11-1", 1/2, "Prohibited")] ∧
    ((1 : ℚ)/2 ≠ 0) ∧
    (checkCompliance ifraY [itemY] 1000 "4").map (fun r => (r.cas, r.limit, r.isCompliant)) =
      [("222-22-2", 1, false)] :=
  ⟨x_rows, by norm_num, y_rows⟩

/-- C6: a zero total batch weight makes `checkCompliance` return the empty
report for every formula, and in particular the empty formula's total weight
is zero and produces an empty report. -/
theorem zero_batch_empty_report (ifra : List (String × IFRAEntry))
    (ingredients : List Ingredient) (formula : List FormulaItem) (cat : String) :
    checkCompliance ifra formula 0 cat = [] ∧
    (calculateStats ingredients ([] : List FormulaItem)).totalWeight = 0 ∧
    checkCompliance ifra []
      ((calculateStats ingredients ([] : List FormulaItem)).totalWeight) cat = [] := by
  have hz : (calculateStats ingredients ([] : List FormulaItem)).totalWeight = 0 := by
    norm_num [calculateStats]
  refine ⟨by simp [checkCompliance], hz, ?_⟩
  rw [hz]
  simp [checkCompliance]

/-- C10: the legacy `ethanolMass` field of `calculateStats` equals the mass
of the `Ethanol` row of the embedded solvent breakdown, and 0 when no such
row exists. -/
theorem ethanolMass_legacy (ingredients : List Ingredient) (formula : List FormulaItem) :
    (∀ e : SolventBreakdownEntry,
      (calculateStats ingredients formula).solventAnalysis.breakdown.find?
          (fun b => b.name = "Ethanol") = some e →
        (calculateStats ingredients formula).ethanolMass = e.mass) ∧
    ((calculateStats ingredients formula).solventAnalysis.breakdown.find?
        (fun b => b.name = "Ethanol") = none →
      (calculateStats ingredients formula).ethanolMass = 0) := by
  have hsa : (calculateStats ingredients formula).solventAnalysis =
      calculateSolventBreakdown formula := rfl
  have hem : (calculateStats ingredients formula).ethanolMass =
      (match (calculateSolventBreakdown formula).breakdown.find?
          (fun b => b.name = "Ethanol") with
       | some e => e.mass
       | none => 0) := rfl
  constructor
  · intro e he
    rw [hsa] at he
    rw [hem, he]
  · intro he
    rw [hsa] at he
    rw [hem, he]

/-- C10 witness: a solvent-free one-item formula has no `Ethanol` row and a
zero legacy ethanol mass. -/
theorem ethanolMass_legacy_witness :
    (calculateStats [] [itemX]).solventAnalysis.breakdown.find?
        (fun b => b.name = "Ethanol") = none ∧
    (calculateStats [] [itemX]).ethanolMass = 0 :=
  have hnone : (calculateStats [] [itemX]).solventAnalysis.breakdown.find?
      (fun b => b.name = "Ethanol") = none := by
    have hsa : (calculateStats [] [itemX]).solventAnalysis =
        calculateSolventBreakdown [itemX] := rfl
    rw [hsa, csb_breakdown_eq]
    norm_num [List.foldl, solvStep, solventContribution, itemX, solvEntries,
      sortByMassDesc, List.find?]
  ⟨hnone, (ethanolMass_legacy [] [itemX]).2 hnone⟩
